import Mathlib

/-!
Verification development for the rsa-mlisa-terraform scripts
(`gcp_resource_reader.py`, `terraform_wrapper.py`, `apply_resources.py`).

The Python code is shallowly embedded: documents are lists of characters,
JSON records are structures with `Option` fields for keys read via
`dict.get`, external command invocations (gcloud / terraform / kubectl)
are inputs of type `Except String α` (error = non-zero exit or
unparseable output), and Python exceptions are modelled with
`Option` / `Except` results.
-/

namespace Mlisa

/-! ## Generic character-list helpers (Python `str` operations) -/

/-- Model of `s.split(sep)` for a one-character separator.  Always returns a
non-empty list of (separator-free) segments. -/
def splitOnChar (sep : Char) : List Char → List (List Char)
  | [] => [[]]
  | c :: rest =>
    if c = sep then [] :: splitOnChar sep rest
    else
      match splitOnChar sep rest with
      | [] => [[c]]
      | l :: ls => (c :: l) :: ls

/-- Join segments back with a one-character separator (inverse of
`splitOnChar`). -/
def joinWith (sep : Char) : List (List Char) → List Char
  | [] => []
  | [l] => l
  | l :: l2 :: ls => l ++ sep :: joinWith sep (l2 :: ls)

theorem splitOnChar_ne_nil (sep : Char) (cs : List Char) : splitOnChar sep cs ≠ [] := by
  cases cs with
  | nil => simp [splitOnChar]
  | cons c rest =>
    simp only [splitOnChar]
    split
    · simp
    · split <;> simp

/-- Python `needle in haystack` (substring containment). -/
def containsSub (needle : List Char) : List Char → Bool
  | [] => needle.isEmpty
  | c :: rest => needle.isPrefixOf (c :: rest) || containsSub needle rest

/-- Substring containment on `String`s (via their character lists). -/
def containsSubStr (needle haystack : String) : Bool :=
  containsSub needle.data haystack.data

/-- Python `s.rsplit('/', 1)[-1]`: the part after the last `/`
(the whole string when there is no `/`). -/
def lastSeg (s : String) : String :=
  String.mk ((splitOnChar '/' s.data).getLastD s.data)

/-- Python `s.rsplit(sep, 1)[0]` for a one-character separator: everything
before the last occurrence of `sep` (the whole string when absent). -/
def rsplitOnceHead (sep : Char) (s : String) : String :=
  let ps := splitOnChar sep s.data
  if ps.length ≤ 1 then s else String.mk (joinWith sep ps.dropLast)

/-- Truthiness of an optional Python string (`if d.get(k):`):
true only for a present, non-empty value. -/
def strTruthy : Option String → Bool
  | none => false
  | some s => s ≠ ""

/-- Python `dict.get` on a key/value association list (first binding wins). -/
def dictGet (l : List (String × String)) (k : String) : Option String :=
  (l.find? (fun kv => kv.1 = k)).map (fun kv => kv.2)

/-- Model of `Except.isOk` as a Bool (success of a modelled fallible call). -/
def isOkE {ε α : Type} : Except ε α → Bool
  | .ok _ => true
  | .error _ => false

/-! ## CIDR Gateway Calculator (`gcp_resource_reader.py`, `_get_gateway_address`)

`ipaddress.ip_network(s, strict=False)` is embedded for IPv4 inputs:
the address is a dotted quad (four ASCII-decimal octets ≤ 255, no leading
zeros), the prefix part is either a decimal prefix length ≤ 32 or a
dotted-quad netmask/hostmask; a missing `/prefix` means `/32`; with
`strict := False` host bits are masked off.  (IPv6 literals, which the
Python library would also accept, are outside the modelled input space:
the configuration files only carry IPv4 ranges.) -/

/-- Digit value of an ASCII digit character. -/
def charDigit (c : Char) : Nat := c.toNat - 48

/-- Decimal value of a digit list. -/
def digitsToNat (cs : List Char) : Nat :=
  cs.foldl (fun acc c => 10 * acc + charDigit c) 0

/-- Model of `ipaddress._parse_octet`: non-empty, ASCII digits only, at most three
digits, value ≤ 255, and no leading zero. -/
def parseOctet (cs : List Char) : Option Nat :=
  if cs = [] then none
  else if ¬ cs.all Char.isDigit then none
  else if cs.length > 3 then none
  else if digitsToNat cs > 255 then none
  else if cs.head? = some '0' ∧ cs.length ≠ 1 then none
  else some (digitsToNat cs)

/-- Model of `ipaddress._ip_int_from_string`: exactly four octets joined by `.`. -/
def parseIPv4Addr (cs : List Char) : Option Nat :=
  match splitOnChar '.' cs with
  | [a, b, c, d] => do
    let o0 ← parseOctet a
    let o1 ← parseOctet b
    let o2 ← parseOctet c
    let o3 ← parseOctet d
    pure (((o0 * 256 + o1) * 256 + o2) * 256 + o3)
  | _ => none

/-- Model of `ipaddress._prefix_from_ip_int`: the prefix length whose netmask
(ones followed by zeros) equals `m`, if any.  The CPython original counts
trailing zero bits and checks the remaining bits are all ones; searching
the 33 possible netmask values returns the same result. -/
def prefixFromMaskInt (m : Nat) : Option Nat :=
  (List.range 33).find? (fun q => m = 2 ^ 32 - 2 ^ (32 - q))

/-- Model of `ipaddress._make_netmask` for a string argument: a run of ASCII digits
is a prefix length (≤ 32, leading zeros tolerated); otherwise the string
must parse as a dotted quad and be a netmask, or failing that its
bit-complement must be one (a hostmask). -/
def parsePrefixLen (cs : List Char) : Option Nat :=
  if cs ≠ [] ∧ cs.all Char.isDigit then
    if digitsToNat cs ≤ 32 then some (digitsToNat cs) else none
  else
    match parseIPv4Addr cs with
    | none => none
    | some m =>
      match prefixFromMaskInt m with
      | some q => some q
      | none => prefixFromMaskInt (2 ^ 32 - 1 - m)

/-- Model of `IPv4Network(s)` address parsing: split on `/` (at most one), a
missing prefix part meaning `/32`.  Returns the raw address integer and
the prefix length. -/
def parseCIDR (s : String) : Option (Nat × Nat) :=
  match splitOnChar '/' s.data with
  | [a] => (parseIPv4Addr a).map (fun v => (v, 32))
  | [a, pr] => do
    let addr ← parseIPv4Addr a
    let plen ← parsePrefixLen pr
    pure (addr, plen)
  | _ => none

/-- The network address of `a/p` under `strict := False`: host bits
masked off. -/
def networkOf (a p : Nat) : Nat := a / 2 ^ (32 - p) * 2 ^ (32 - p)

/-- Minimal decimal rendering of an octet value (enough fuel for
values < 1000). -/
def natToCharsAux : Nat → Nat → List Char
  | 0, _ => []
  | fuel + 1, n =>
    if n < 10 then [Char.ofNat (48 + n)]
    else natToCharsAux fuel (n / 10) ++ [Char.ofNat (48 + n % 10)]

/-- Decimal rendering of an octet value ≤ 255. -/
def octetChars (n : Nat) : List Char := natToCharsAux 3 n

/-- Model of `str(IPv4Address(n))`: dotted-decimal rendering of a 32-bit value. -/
def ipv4ToString (n : Nat) : String :=
  String.mk (octetChars (n / 2 ^ 24 % 256) ++ '.' ::
             octetChars (n / 2 ^ 16 % 256) ++ '.' ::
             octetChars (n / 2 ^ 8 % 256) ++ '.' ::
             octetChars (n % 256))

/-- Model of `GCPResourceReader._get_gateway_address`: parse the CIDR, add one to
the network address (an out-of-range result raises inside `ipaddress`,
caught and turned into the sentinel), keep it only if it lies between the
network and broadcast addresses; every failure path yields `"N/A"`. -/
def get_gateway_address (s : String) : String :=
  match parseCIDR s with
  | none => "N/A"
  | some (a, p) =>
    let d := 2 ^ (32 - p)
    let net := a / d * d
    -- `network.network_address + 1` raises AddressValueError above 2^32 - 1
    if 2 ^ 32 ≤ net + 1 then "N/A"
    -- `gateway in network`: network_address ≤ gateway ≤ broadcast_address
    else if net ≤ net + 1 ∧ net + 1 ≤ net + (d - 1) then ipv4ToString (net + 1)
    else "N/A"

/-! ## YAML cleaning (`apply_resources.py`, `clean_yaml`)

`re.sub(r'%$', '', content, flags=re.MULTILINE)` removes one `%`
immediately before each newline and one `%` at the very end of the
document; the scan is a single left-to-right pass (no re-scanning of
replaced positions), so at most one `%` is removed per line end. -/

/-- Character-level embedding of `re.sub(r'%$', '', content, re.MULTILINE)`. -/
def stripPercentEOL : List Char → List Char
  | [] => []
  | [c] => if c = '%' then [] else [c]
  | c :: d :: rest =>
    if c = '%' ∧ d = '\n' then '\n' :: stripPercentEOL rest
    else c :: stripPercentEOL (d :: rest)

/-- Model of `clean_yaml`: strip one trailing `%` per line, then append a newline
when the document does not already end with one. -/
def clean_yaml (content : List Char) : List Char :=
  let stripped := stripPercentEOL content
  if stripped.getLast? = some '\n' then stripped else stripped ++ ['\n']

/-- Drop one trailing `%` from a line, if present (line-level description
of what the multiline regex does at a single line end). -/
def dropOnePercent : List Char → List Char
  | [] => []
  | [c] => if c = '%' then [] else [c]
  | c :: d :: rest => c :: dropOnePercent (d :: rest)

/-- Append a newline only when the document does not already end with
one (the second phase of `clean_yaml`). -/
def ensureTrailingNewline (cs : List Char) : List Char :=
  if cs.getLast? = some '\n' then cs else cs ++ ['\n']

/-- Modelled from the spec: the cleaning step as the specification
sentences describe it — "trailing `%` characters removed from the end of
every line" (all of them) "and exactly one trailing newline at the end of
the document".  Used only as the foil the implementation is compared
against. -/
def specClean (cs : List Char) : List Char :=
  let stripped := joinWith '\n'
    ((splitOnChar '\n' cs).map (fun l => (l.reverse.dropWhile (fun c => c = '%')).reverse))
  (stripped.reverse.dropWhile (fun c => c = '\n')).reverse ++ ['\n']

/-! ## Text substitution (`apply_resources.py`, `apply_replacements`)

Python `str.replace(search, replace)` replaces all non-overlapping
occurrences in a single left-to-right scan.  The scan is embedded with a
fuel argument equal to the input length (each step consumes at least one
character, so the fuel never runs out on real inputs). -/

/-- One left-to-right replacement scan (fuel-indexed). -/
def replaceAllAux (sea rep : List Char) : Nat → List Char → List Char
  | 0, cs => cs
  | _ + 1, [] => []
  | fuel + 1, c :: rest =>
    if sea ≠ [] ∧ sea.isPrefixOf (c :: rest) then
      rep ++ replaceAllAux sea rep fuel ((c :: rest).drop sea.length)
    else c :: replaceAllAux sea rep fuel rest

/-- Python `content.replace(search, replace)` (for the non-empty search
strings the caller feeds it; `apply_replacements` skips empty ones). -/
def replaceAll (sea rep cs : List Char) : List Char :=
  replaceAllAux sea rep cs.length cs

/-- Model of `apply_replacements`: fold the (search, replace) pairs over the
content in list order, skipping any pair whose search or replace string
is empty. -/
def apply_replacements (content : List Char) (reps : List (List Char × List Char)) : List Char :=
  reps.foldl
    (fun acc sr => if sr.1 ≠ [] ∧ sr.2 ≠ [] then replaceAll sr.1 sr.2 acc else acc)
    content

/-! ## IP range configuration (`config.json` → `self.ip_ranges`)

`self.ip_ranges` is a dict read with
`self.ip_ranges.get('primary'|'dr', {}).get(<range name>, '')`;
absent keys are `Option.none` and default to `""` at use sites. -/

structure SiteRanges where
  subnet_ip_cidr_range : Option String
  secondary_ip_range_pod : Option String
  secondary_ip_range_svc : Option String
  vpc_connector_ip_cidr_range : Option String
  gke_master_ip_cidr_range : Option String
deriving DecidableEq

structure IpRanges where
  primary : SiteRanges
  dr : SiteRanges
deriving DecidableEq

/-- Model of `o.get(k, '')` for an optional string. -/
def getS (o : Option String) : String := o.getD ""

/-! ## Compute subnetworks (`get_compute_subnetworks`)

One fetched record per subnetwork; `secondaryIpRanges` absent ≡ `[]`
(both are falsy in the `if subnetwork.get('secondaryIpRanges'):` test). -/

structure SecondaryIpRange where
  rangeName : String
deriving DecidableEq

structure Subnetwork where
  name : String
  description : Option String
  privateIpGoogleAccess : Option Bool
  secondaryIpRanges : List SecondaryIpRange
deriving DecidableEq

structure SecondaryIpRangeInfo where
  name : String
  ip_cidr_range : String
deriving DecidableEq

structure SubnetworkInfo where
  name : String
  description : String
  ip_cidr_range : String
  gateway_address : String
  private_ip_google_access : Bool
  secondary_ip_range : List SecondaryIpRangeInfo
deriving DecidableEq

/-- Primary subnetwork record (`subnetwork_info` in the loop body). -/
def subnetworkInfo (ipr : IpRanges) (sn : Subnetwork) : SubnetworkInfo :=
  if sn.secondaryIpRanges ≠ [] then
    { name := sn.name
      description := getS sn.description
      ip_cidr_range := getS ipr.primary.subnet_ip_cidr_range
      gateway_address := get_gateway_address (getS ipr.primary.subnet_ip_cidr_range)
      private_ip_google_access := sn.privateIpGoogleAccess.getD false
      secondary_ip_range := sn.secondaryIpRanges.map (fun r =>
        { name := r.rangeName
          ip_cidr_range :=
            if "pod".data.isSuffixOf r.rangeName.data then
              getS ipr.primary.secondary_ip_range_pod
            else getS ipr.primary.secondary_ip_range_svc }) }
  else
    { name := sn.name
      description := getS sn.description
      ip_cidr_range := getS ipr.primary.vpc_connector_ip_cidr_range
      gateway_address := get_gateway_address (getS ipr.primary.vpc_connector_ip_cidr_range)
      private_ip_google_access := sn.privateIpGoogleAccess.getD false
      secondary_ip_range := [] }

/-- DR subnetwork record (`dr_subnetwork_info` in the loop body). -/
def drSubnetworkInfo (ipr : IpRanges) (sn : Subnetwork) : SubnetworkInfo :=
  if sn.secondaryIpRanges ≠ [] then
    { name := sn.name ++ "-dr"
      description := getS sn.description
      ip_cidr_range := getS ipr.dr.subnet_ip_cidr_range
      gateway_address := get_gateway_address (getS ipr.dr.subnet_ip_cidr_range)
      private_ip_google_access := sn.privateIpGoogleAccess.getD false
      secondary_ip_range := sn.secondaryIpRanges.map (fun r =>
        { name := r.rangeName ++ "-dr"
          ip_cidr_range :=
            if "pod".data.isSuffixOf r.rangeName.data then
              getS ipr.dr.secondary_ip_range_pod
            else getS ipr.dr.secondary_ip_range_svc }) }
  else
    { name := sn.name ++ "-dr"
      description := getS sn.description
      ip_cidr_range := getS ipr.dr.vpc_connector_ip_cidr_range
      gateway_address := get_gateway_address (getS ipr.dr.vpc_connector_ip_cidr_range)
      private_ip_google_access := sn.privateIpGoogleAccess.getD false
      secondary_ip_range := [] }

/-- The `self.subnetwork_name` mutation: the loop assigns the name of
each subnetwork that has secondary ranges, so the last such one wins;
`init` is the value on entry (`'default'` at construction). -/
def subnetworkNameAfter (init : String) : List Subnetwork → String
  | [] => init
  | sn :: rest =>
    subnetworkNameAfter (if sn.secondaryIpRanges ≠ [] then sn.name else init) rest

/-- Model of `get_compute_subnetworks`: on a fetch failure the wrapped error is
re-raised; otherwise both site lists are built and the updated
`self.subnetwork_name` is the third component. -/
def get_compute_subnetworks (ipr : IpRanges) (initName : String)
    (fetch : Except String (List Subnetwork)) :
    Except String (List SubnetworkInfo × List SubnetworkInfo × String) :=
  match fetch with
  | .error e => .error ("Error getting compute subnetworks: " ++ e)
  | .ok sns =>
    .ok (sns.map (subnetworkInfo ipr), sns.map (drSubnetworkInfo ipr),
         subnetworkNameAfter initName sns)

/-! ## NAT routers (`get_nat_routers`) -/

structure RouterNatLogConfig where
  enable : Option Bool
  filter : Option String
deriving DecidableEq

structure RouterNat where
  name : String
  natIpAllocateOption : Option String
  sourceSubnetworkIpRangesToNat : Option String
  maxPortsPerVm : Option Int
  logConfig : Option RouterNatLogConfig  -- `none` ≡ absent or empty (falsy) dict
deriving DecidableEq

structure Router where
  name : String
  description : Option String
  nats : List RouterNat
deriving DecidableEq

structure NatLogConfigInfo where
  enable : Bool
  filter : String
deriving DecidableEq

structure NatInfo where
  name : String
  nat_ip_allocate_option : String
  source_subnetwork_ip_ranges_to_nat : String
  max_ports_per_vm : Int
  log_config : Option NatLogConfigInfo
deriving DecidableEq

structure RouterInfo where
  name : String
  description : String
  -- source stores a literal empty list when `router['nats']` is falsy;
  -- `none` models that branch
  nat : Option NatInfo
deriving DecidableEq

/-- Primary router record (`router_info` in the loop body). -/
def routerInfo (r : Router) : RouterInfo :=
  { name := r.name
    description := getS r.description
    nat := match r.nats with
      | n0 :: _ => some
        { name := n0.name
          nat_ip_allocate_option := getS n0.natIpAllocateOption
          source_subnetwork_ip_ranges_to_nat := getS n0.sourceSubnetworkIpRangesToNat
          max_ports_per_vm := n0.maxPortsPerVm.getD 0
          log_config := n0.logConfig.map (fun lc =>
            { enable := lc.enable.getD false, filter := getS lc.filter }) }
      | [] => none }

/-- DR router record (`dr_router_info` in the loop body). -/
def drRouterInfo (r : Router) : RouterInfo :=
  { name := r.name ++ "-dr"
    description := getS r.description
    nat := match r.nats with
      | n0 :: _ => some
        { name := n0.name ++ "-dr"
          nat_ip_allocate_option := getS n0.natIpAllocateOption
          source_subnetwork_ip_ranges_to_nat := getS n0.sourceSubnetworkIpRangesToNat
          max_ports_per_vm := n0.maxPortsPerVm.getD 0
          log_config := n0.logConfig.map (fun lc =>
            { enable := lc.enable.getD false, filter := getS lc.filter }) }
      | [] => none }

/-- Model of `get_nat_routers`: both site dicts, keyed by the record name
(insertion-ordered association lists model the Python dicts). -/
def get_nat_routers (fetch : Except String (List Router)) :
    Except String (List (String × RouterInfo) × List (String × RouterInfo)) :=
  match fetch with
  | .error e => .error ("Error getting NAT routers: " ++ e)
  | .ok rs =>
    .ok (rs.map (fun r => (r.name, routerInfo r)),
         rs.map (fun r => (r.name ++ "-dr", drRouterInfo r)))

/-! ## DataProc clusters (`get_dataproc_clusters` and its extractors) -/

structure DiskConfig where
  bootDiskSizeGb : Option Int
  bootDiskType : Option String
deriving DecidableEq

structure DataprocNodeConfig where
  numInstances : Option Int
  machineTypeUri : Option String
  imageUri : Option String
  preemptibility : Option String
  diskConfig : Option DiskConfig  -- `none` ≡ absent or empty (falsy) dict
deriving DecidableEq

/-- The five properties `_extract_software_config` reads out of the
`properties` dict (each via `.get`, so each may be absent). -/
structure DataprocProps where
  monitoringStackdriverEnable : Option String
  mapreduceMapSpeculative : Option String
  mapreduceReduceSpeculative : Option String
  sparkEventLogEnabled : Option String
  yarnCpuVcores : Option String
deriving DecidableEq

structure DataprocSoftwareConfig where
  imageVersion : Option String
  -- `none` ≡ empty/absent properties dict (falsy);
  -- `some _` ≡ a non-empty dict, holding the five keys looked up
  properties : Option DataprocProps
deriving DecidableEq

structure GceClusterConfig where
  internalIpOnly : Option Bool
  -- indexed unconditionally by the subnetwork filter line, hence required
  subnetworkUri : String
  tags : Option (List String)
deriving DecidableEq

structure DataprocClusterConfig where
  gceClusterConfig : GceClusterConfig
  masterConfig : Option DataprocNodeConfig
  workerConfig : Option DataprocNodeConfig
  softwareConfig : Option DataprocSoftwareConfig
deriving DecidableEq

structure DataprocCluster where
  clusterName : String
  config : DataprocClusterConfig
deriving DecidableEq

structure DiskConfigInfo where
  boot_disk_size_gb : Option Int
  boot_disk_type : Option String
deriving DecidableEq

structure DataprocNodeConfigInfo where
  num_instances : Option Int
  machine_type : Option String
  image : Option String
  preemptibility : Option String
  disk_config : Option DiskConfigInfo
deriving DecidableEq

structure SoftwareConfigInfo where
  image_version : Option String
  properties : Option DataprocProps
deriving DecidableEq

structure GceClusterConfigInfo where
  internal_ip_only : Option Bool
  subnetwork : String
  tags : Option (List String)
deriving DecidableEq

structure DpcClusterConfigInfo where
  gce_cluster_config : Option GceClusterConfigInfo
  master_config : Option DataprocNodeConfigInfo
  worker_config : Option DataprocNodeConfigInfo
  software_config : Option SoftwareConfigInfo
deriving DecidableEq

structure DataprocClusterInfo where
  cluster_name : String
  labels : List (String × String)
  cluster_config : DpcClusterConfigInfo
deriving DecidableEq

/-- Model of `_extract_dataproc_labels`: a fixed label dict. -/
def extract_dataproc_labels : List (String × String) :=
  [("application", "druid"), ("product", "mlisa")]

/-- Model of `_extract_dataproc_node_config`.  An empty-string `machineTypeUri` or
`imageUri` is falsy in Python and also yields `None`. -/
def extract_dataproc_node_config (nc : Option DataprocNodeConfig) :
    Option DataprocNodeConfigInfo :=
  match nc with
  | none => none
  | some n => some
    { num_instances := n.numInstances
      machine_type := if strTruthy n.machineTypeUri then some (lastSeg (getS n.machineTypeUri)) else none
      image := if strTruthy n.imageUri then some (lastSeg (getS n.imageUri)) else none
      preemptibility := n.preemptibility
      disk_config := n.diskConfig.map (fun dc =>
        { boot_disk_size_gb := dc.bootDiskSizeGb, boot_disk_type := dc.bootDiskType }) }

/-- Model of `_extract_software_config`. -/
def extract_software_config (sc : Option DataprocSoftwareConfig) :
    Option SoftwareConfigInfo :=
  match sc with
  | none => none
  | some s => some { image_version := s.imageVersion, properties := s.properties }

/-- The subnetwork comparison
`cluster['config']['gceClusterConfig']['subnetworkUri'].rsplit('/', 1)[-1] == self.subnetwork_name`. -/
def dpcMatches (subnetworkName : String) (c : DataprocCluster) : Bool :=
  lastSeg c.config.gceClusterConfig.subnetworkUri = subnetworkName

/-- Primary DataProc configuration (`primary_cluster` in the loop body). -/
def dpcPrimaryInfo (c : DataprocCluster) : DataprocClusterInfo :=
  { cluster_name := c.clusterName
    labels := extract_dataproc_labels
    cluster_config :=
      { gce_cluster_config := some
          -- the guard `if cluster['config'].get('gceClusterConfig')` is
          -- always true here: the filter line already indexed that key
          { internal_ip_only := c.config.gceClusterConfig.internalIpOnly
            subnetwork := lastSeg c.config.gceClusterConfig.subnetworkUri
            tags := c.config.gceClusterConfig.tags }
        master_config := extract_dataproc_node_config c.config.masterConfig
        worker_config := extract_dataproc_node_config c.config.workerConfig
        software_config := extract_software_config c.config.softwareConfig } }

/-- DR DataProc configuration (`dr_cluster` in the loop body). -/
def dpcDrInfo (c : DataprocCluster) : DataprocClusterInfo :=
  { cluster_name := c.clusterName ++ "-dr"
    labels := extract_dataproc_labels
    cluster_config :=
      { gce_cluster_config := some
          { internal_ip_only := c.config.gceClusterConfig.internalIpOnly
            subnetwork := lastSeg c.config.gceClusterConfig.subnetworkUri ++ "-dr"
            tags := match c.config.gceClusterConfig.tags with
              | some (t :: _) => some [t ++ "-dr"]
              | _ => none }  -- `if ...get('tags')`: absent or empty list is falsy
        master_config := extract_dataproc_node_config c.config.masterConfig
        worker_config := extract_dataproc_node_config c.config.workerConfig
        software_config := extract_software_config c.config.softwareConfig } }

/-- The fetch loop: take the first cluster on the reader's subnetwork
(`break` after it), skipping the rest; `(none, none)` models the initial
pair of empty dicts returned when nothing matches. -/
def dpcLoop (subnetworkName : String) :
    List DataprocCluster → Option DataprocClusterInfo × Option DataprocClusterInfo
  | [] => (none, none)
  | c :: rest =>
    if dpcMatches subnetworkName c then (some (dpcPrimaryInfo c), some (dpcDrInfo c))
    else dpcLoop subnetworkName rest

/-- Model of `get_dataproc_clusters`. -/
def get_dataproc_clusters (subnetworkName : String)
    (fetch : Except String (List DataprocCluster)) :
    Except String (Option DataprocClusterInfo × Option DataprocClusterInfo) :=
  match fetch with
  | .error e => .error ("Error getting DataProc clusters: " ++ e)
  | .ok cs => .ok (dpcLoop subnetworkName cs)

/-! ## Cloud Functions (`get_cloudfunctions`) -/

structure CloudFunction where
  name : String
  runtime : String
  availableMemoryMb : Int
  sourceArchiveUrl : String
  timeout : String
  entryPoint : String
  vpcConnector : String
  environmentVariables : List (String × String)  -- `.get(..., {})`: absent ≡ []
  minInstances : Option Int
  maxInstances : Option Int
deriving DecidableEq

structure CloudFunctionInfo where
  name : String
  runtime : String
  available_memory_mb : Int
  source_archive_bucket : String
  source_archive_object : String
  timeout : String
  entry_point : String
  trigger_http : Bool
  vpc_connector : String
  vpc_connector_egress_settings : String
  environment_variables : List (String × String)
  min_instances : Int
  max_instances : Int
deriving DecidableEq, Inhabited

/-- Model of `function['sourceArchiveUrl'].rsplit('/')[2]` — an IndexError
(`none`) when the URL has fewer than three `/`-separated parts. -/
def archiveBucket (url : String) : Option String :=
  ((splitOnChar '/' url.data).get? 2).map String.mk

/-- Model of `"/".join(function['sourceArchiveUrl'].rsplit('/')[3:])`. -/
def archiveObject (url : String) : String :=
  String.mk (joinWith '/' ((splitOnChar '/' url.data).drop 3))

/-- Primary Cloud Function record; `none` models the uncaught IndexError
on a malformed archive URL. -/
def functionInfo (fn : CloudFunction) : Option CloudFunctionInfo :=
  match archiveBucket fn.sourceArchiveUrl with
  | none => none
  | some bucket => some
    { name := lastSeg fn.name
      runtime := fn.runtime
      available_memory_mb := fn.availableMemoryMb
      source_archive_bucket := bucket
      source_archive_object := archiveObject fn.sourceArchiveUrl
      timeout := rsplitOnceHead 's' fn.timeout
      entry_point := fn.entryPoint
      trigger_http := true
      vpc_connector := lastSeg fn.vpcConnector
      vpc_connector_egress_settings := "PRIVATE_RANGES_ONLY"
      environment_variables := fn.environmentVariables
      min_instances := fn.minInstances.getD 0
      max_instances := fn.maxInstances.getD 0 }

/-- DR Cloud Function record. -/
def drFunctionInfo (fn : CloudFunction) : Option CloudFunctionInfo :=
  match archiveBucket fn.sourceArchiveUrl with
  | none => none
  | some bucket => some
    { name := lastSeg fn.name ++ "-dr"
      runtime := fn.runtime
      available_memory_mb := fn.availableMemoryMb
      source_archive_bucket := bucket
      source_archive_object := archiveObject fn.sourceArchiveUrl
      timeout := rsplitOnceHead 's' fn.timeout
      entry_point := fn.entryPoint
      trigger_http := true
      vpc_connector := lastSeg fn.vpcConnector ++ "-dr"
      vpc_connector_egress_settings := "PRIVATE_RANGES_ONLY"
      environment_variables := fn.environmentVariables
      min_instances := fn.minInstances.getD 0
      max_instances := fn.maxInstances.getD 0 }

/-- Model of `get_cloudfunctions` (the gcloud-side VPC-connector filter is applied
before the list reaches this function). -/
def get_cloudfunctions (fetch : Except String (List CloudFunction)) :
    Except String (List CloudFunctionInfo × List CloudFunctionInfo) :=
  match fetch with
  | .error e => .error ("Error getting Cloud Functions: " ++ e)
  | .ok fns =>
    match fns.mapM (fun fn => do pure ((← functionInfo fn), (← drFunctionInfo fn))) with
    | none => .error "Error getting Cloud Functions: list index out of range"
    | some pairs => .ok (pairs.map Prod.fst, pairs.map Prod.snd)

/-! ## Cloud Run services (`get_cloudrun`, `_extract_container_env`) -/

structure RunEnvEntry where
  name : Option String
  value : Option String
deriving DecidableEq

structure ContainerEnvVar where
  name : String
  value : String
deriving DecidableEq

/-- Fields `resources` and `ports` are passed through untouched; their payloads
are opaque here. -/
structure RunContainer where
  image : String
  command : Option (List String)
  args : Option (List String)
  env : List RunEnvEntry  -- `.get('env', [])`
  resources : Option String
  ports : Option String
deriving DecidableEq

structure RunTemplateSpec where
  timeoutSeconds : Option Int
  containerConcurrency : Option Int
  containers : List RunContainer  -- `.get('containers', [])`
deriving DecidableEq

structure RunTemplate where
  annotations : List (String × String)  -- `metadata.get('annotations', {})`
  spec : RunTemplateSpec
deriving DecidableEq

structure RunService where
  name : String  -- `service['metadata']['name']`
  template : RunTemplate
  traffic : String  -- `service['spec']['traffic']`, passed through opaque
deriving DecidableEq

structure ContainerInfo where
  image : String
  command : Option (List String)
  args : Option (List String)
  env : List ContainerEnvVar
  resources : Option String
  ports : Option String
deriving DecidableEq

structure RunSpecInfo where
  timeout_seconds : Option Int
  container_concurrency : Option Int
  containers : List ContainerInfo
deriving DecidableEq

structure RunTemplateInfo where
  annotations : List (String × String)
  spec : RunSpecInfo
deriving DecidableEq

structure RunServiceInfo where
  name : String
  template : RunTemplateInfo
  traffic : String
deriving DecidableEq

/-- Model of `_extract_container_env`: keep entries that have both keys and whose
name is not in the excluded pair. -/
def extract_container_env (env : List RunEnvEntry) : List ContainerEnvVar :=
  env.filterMap (fun e =>
    match e.name, e.value with
    | some n, some v =>
      if n ≠ "PIVOT_PROXY_HOST" ∧ n ≠ "EXPORTER_URL" then some ⟨n, v⟩ else none
    | _, _ => none)

/-- The container reshaping shared by both site records. -/
def runContainerInfo (c : RunContainer) : ContainerInfo :=
  { image := c.image
    command := c.command
    args := c.args
    env := extract_container_env c.env
    resources := c.resources
    ports := c.ports }

/-- Fixed primary-site annotation dict (with the reader's connector name). -/
def runAnnotations (subnetworkName : String) : List (String × String) :=
  [("autoscaling.knative.dev/maxScale", "1000"),
   ("run.googleapis.com/client-name", "terraform"),
   ("run.googleapis.com/vpc-access-connector", subnetworkName ++ "-func"),
   ("run.googleapis.com/vpc-access-egress", "private-ranges-only")]

/-- Fixed DR-site annotation dict. -/
def runAnnotationsDr (subnetworkName : String) : List (String × String) :=
  [("autoscaling.knative.dev/maxScale", "1000"),
   ("run.googleapis.com/client-name", "terraform"),
   ("run.googleapis.com/vpc-access-connector", subnetworkName ++ "-func-dr"),
   ("run.googleapis.com/vpc-access-egress", "private-ranges-only")]

/-- Primary Cloud Run record (`primary_service_info`). -/
def runServiceInfo (subnetworkName : String) (s : RunService) : RunServiceInfo :=
  { name := s.name
    template :=
      { annotations := runAnnotations subnetworkName
        spec :=
          { timeout_seconds := s.template.spec.timeoutSeconds
            container_concurrency := s.template.spec.containerConcurrency
            containers := s.template.spec.containers.map runContainerInfo } }
    traffic := s.traffic }

/-- DR Cloud Run record (`dr_service_info`). -/
def drRunServiceInfo (subnetworkName : String) (s : RunService) : RunServiceInfo :=
  { name := s.name ++ "-dr"
    template :=
      { annotations := runAnnotationsDr subnetworkName
        spec :=
          { timeout_seconds := s.template.spec.timeoutSeconds
            container_concurrency := s.template.spec.containerConcurrency
            containers := s.template.spec.containers.map runContainerInfo } }
    traffic := s.traffic }

/-- Model of `get_cloudrun`: keep the services whose vpc-access-connector
annotation names the reader's connector, then reshape both site lists. -/
def get_cloudrun (subnetworkName : String) (fetch : Except String (List RunService)) :
    Except String (List RunServiceInfo × List RunServiceInfo) :=
  match fetch with
  | .error e => .error ("Error getting Cloud Run services: " ++ e)
  | .ok svcs =>
    let kept := svcs.filter (fun s =>
      dictGet s.template.annotations "run.googleapis.com/vpc-access-connector"
        = some (subnetworkName ++ "-func"))
    .ok (kept.map (runServiceInfo subnetworkName), kept.map (drRunServiceInfo subnetworkName))

/-! ## Container clusters (`get_container_clusters` and its extractors) -/

structure MaxPodsConstraint where
  maxPodsPerNode : Int
deriving DecidableEq

structure IpAllocationPolicy where
  clusterSecondaryRangeName : Option String
  servicesSecondaryRangeName : Option String
deriving DecidableEq

structure PrivateClusterConfig where
  enablePrivateNodes : Option Bool
deriving DecidableEq

structure ReleaseChannel where
  channel : Option String
deriving DecidableEq

structure NetworkPolicyConfig where
  disabled : Option Bool
deriving DecidableEq

structure EnabledConfig where
  enabled : Option Bool
deriving DecidableEq

structure AddonsConfig where
  networkPolicyConfig : Option NetworkPolicyConfig
  gcePersistentDiskCsiDriverConfig : Option EnabledConfig
  gcsFuseCsiDriverConfig : Option EnabledConfig
deriving DecidableEq

structure DatabaseEncryption where
  state : Option String
deriving DecidableEq

structure ClusterAutoscaling where
  autoscalingProfile : Option String
deriving DecidableEq

structure NodePoolAutoscaling where
  enabled : Option Bool
  totalMinNodeCount : Option Int
  totalMaxNodeCount : Option Int
  maxNodeCount : Option Int
  minNodeCount : Option Int
  locationPolicy : Option String
deriving DecidableEq

structure NodePoolMaxPods where
  maxPodsPerNode : Option Int
deriving DecidableEq

structure NodePoolManagement where
  autoRepair : Option Bool
deriving DecidableEq

structure UpgradeSettings where
  maxSurge : Option Int
deriving DecidableEq

/-- Model of `node_pool['config']`; `shieldedInstanceConfig` and
`linuxNodeConfig` are passed through opaque. -/
structure GkeNodeConfig where
  machineType : Option String
  diskSizeGb : Option Int
  diskType : Option String
  imageType : Option String
  labels : List (String × String)  -- `.get('labels', {})`
  serviceAccount : Option String
  oauthScopes : List String  -- `.get('oauthScopes', [])`
  shieldedInstanceConfig : Option String
  metadata : List (String × String)  -- `.get('metadata', {})`
  linuxNodeConfig : Option String
deriving DecidableEq

/-- A fetched node pool.  The `Option` wrappers on the sub-dicts model
the `'autoscaling' in node_pool`-style presence tests; `config` absent
behaves as an empty dict (`.get('config', {})`). -/
structure NodePool where
  name : String
  initialNodeCount : Option Int
  autoscaling : Option NodePoolAutoscaling
  maxPodsConstraint : Option NodePoolMaxPods
  management : Option NodePoolManagement
  upgradeSettings : Option UpgradeSettings
  config : Option GkeNodeConfig
deriving DecidableEq

structure ContainerCluster where
  name : String
  subnetwork : String
  defaultMaxPodsConstraint : MaxPodsConstraint
  ipAllocationPolicy : Option IpAllocationPolicy
  deletionProtection : Option Bool
  loggingService : String
  monitoringService : String
  releaseChannel : Option ReleaseChannel
  privateClusterConfig : Option PrivateClusterConfig
  addonsConfig : Option AddonsConfig
  databaseEncryption : Option DatabaseEncryption
  autoscaling : Option ClusterAutoscaling
  nodePools : List NodePool  -- `.get('nodePools', [])`
deriving DecidableEq

structure IpAllocationPolicyInfo where
  cluster_secondary_range_name : Option String
  services_secondary_range_name : Option String
deriving DecidableEq

structure PrivateClusterConfigInfo where
  enable_private_nodes : Option Bool
  master_ipv4_cidr_block : String
deriving DecidableEq

structure NetworkPolicyConfigInfo where
  disabled : Option Bool
deriving DecidableEq

structure EnabledInfo where
  enabled : Option Bool
deriving DecidableEq

structure AddonsConfigInfo where
  network_policy_config : Option NetworkPolicyConfigInfo
  gce_persistent_disk_csi_driver_config : Option EnabledInfo
  gcs_fuse_csi_driver_config : Option EnabledInfo
deriving DecidableEq

structure DatabaseEncryptionInfo where
  state : Option String
deriving DecidableEq

structure ClusterAutoscalingInfo where
  autoscaling_profile : Option String
deriving DecidableEq

structure NodePoolAutoscalingInfo where
  enabled : Option Bool
  total_min_node_count : Option Int
  total_max_node_count : Option Int
  max_node_count : Option Int
  min_node_count : Option Int
  location_policy : Option String
deriving DecidableEq

structure NodePoolMaxPodsInfo where
  max_pods_per_node : Option Int
deriving DecidableEq

structure NodePoolManagementInfo where
  auto_repair : Option Bool
deriving DecidableEq

structure UpgradeSettingsInfo where
  max_surge : Option Int
deriving DecidableEq

structure GkeNodeConfigInfo where
  machine_type : Option String
  disk_size_gb : Option Int
  disk_type : Option String
  image_type : Option String
  labels : List (String × String)
  service_account : Option String
  oauth_scopes : List String
  shielded_instance_config : Option String
  metadata : List (String × String)
  linux_node_config : Option String
deriving DecidableEq

structure NodePoolInfo where
  name : String
  initial_node_count : Int
  autoscaling : Option NodePoolAutoscalingInfo
  max_pods_constraint : Option NodePoolMaxPodsInfo
  management : Option NodePoolManagementInfo
  upgrade_settings : Option UpgradeSettingsInfo
  node_config : GkeNodeConfigInfo
deriving DecidableEq

structure ReleaseChannelInfo where
  channel : Option String
deriving DecidableEq, Inhabited

structure ContainerClusterInfo where
  name : String
  subnetwork : String
  default_max_pods_per_node : Int
  ip_allocation_policy : Option IpAllocationPolicyInfo
  deletion_protection : Bool
  logging_service : String
  monitoring_service : String
  release_channel : ReleaseChannelInfo
  private_cluster_config : Option PrivateClusterConfigInfo
  addons_config : Option AddonsConfigInfo
  database_encryption : Option DatabaseEncryptionInfo
  cluster_autoscaling : Option ClusterAutoscalingInfo
  node_pools : List NodePoolInfo
deriving DecidableEq, Inhabited

/-- Model of `_extract_ip_allocation_policy`.  In the DR branch the source
concatenates `policy.get(...) + '-dr'` without a guard, so a missing
range name raises a TypeError (`None + str`), modelled by the outer
`none`. -/
def extract_ip_allocation_policy (policy : Option IpAllocationPolicy) (is_dr : Bool) :
    Option (Option IpAllocationPolicyInfo) :=
  match policy with
  | none => some none
  | some p =>
    if is_dr then
      match p.clusterSecondaryRangeName, p.servicesSecondaryRangeName with
      | some c, some s => some (some ⟨some (c ++ "-dr"), some (s ++ "-dr")⟩)
      | _, _ => none
    else some (some ⟨p.clusterSecondaryRangeName, p.servicesSecondaryRangeName⟩)

/-- Model of `_extract_private_cluster_config`. -/
def extract_private_cluster_config (ipr : IpRanges)
    (config : Option PrivateClusterConfig) (is_dr : Bool) :
    Option PrivateClusterConfigInfo :=
  config.map (fun c =>
    { enable_private_nodes := c.enablePrivateNodes
      master_ipv4_cidr_block :=
        if is_dr then getS ipr.dr.gke_master_ip_cidr_range
        else getS ipr.primary.gke_master_ip_cidr_range })

/-- Model of `_extract_addons_config`. -/
def extract_addons_config (config : Option AddonsConfig) : Option AddonsConfigInfo :=
  config.map (fun c =>
    { network_policy_config := c.networkPolicyConfig.map (fun n => ⟨n.disabled⟩)
      gce_persistent_disk_csi_driver_config :=
        c.gcePersistentDiskCsiDriverConfig.map (fun g => ⟨g.enabled⟩)
      gcs_fuse_csi_driver_config := c.gcsFuseCsiDriverConfig.map (fun g => ⟨g.enabled⟩) })

/-- Model of `_extract_database_encryption`. -/
def extract_database_encryption (config : Option DatabaseEncryption) :
    Option DatabaseEncryptionInfo :=
  config.map (fun c => ⟨c.state⟩)

/-- Model of `_extract_cluster_autoscaling`. -/
def extract_cluster_autoscaling (config : Option ClusterAutoscaling) :
    Option ClusterAutoscalingInfo :=
  config.map (fun c => ⟨c.autoscalingProfile⟩)

/-- One node pool record (`pool_info` in `_extract_node_pools`).  The
`.getD 1` default in the count is unreachable: the guard already handled
the `none` case. -/
def nodePoolInfo (is_dr : Bool) (np : NodePool) : NodePoolInfo :=
  { name := if is_dr then np.name ++ "-dr" else np.name
    -- DR node pool initial node count is always 1 in the source
    initial_node_count :=
      if is_dr || np.initialNodeCount.isNone then 1 else np.initialNodeCount.getD 1
    autoscaling := np.autoscaling.map (fun a =>
      { enabled := a.enabled
        total_min_node_count := a.totalMinNodeCount
        total_max_node_count := a.totalMaxNodeCount
        max_node_count := a.maxNodeCount
        min_node_count := a.minNodeCount
        location_policy := a.locationPolicy })
    max_pods_constraint := np.maxPodsConstraint.map (fun m => ⟨m.maxPodsPerNode⟩)
    management := np.management.map (fun m => ⟨m.autoRepair⟩)
    upgrade_settings := np.upgradeSettings.map (fun u => ⟨u.maxSurge⟩)
    node_config :=
      { machine_type := np.config.bind (fun c => c.machineType)
        disk_size_gb := np.config.bind (fun c => c.diskSizeGb)
        disk_type := np.config.bind (fun c => c.diskType)
        image_type := np.config.bind (fun c => c.imageType)
        labels := (np.config.map (fun c => c.labels)).getD []
        service_account := np.config.bind (fun c => c.serviceAccount)
        oauth_scopes := (np.config.map (fun c => c.oauthScopes)).getD []
        shielded_instance_config := np.config.bind (fun c => c.shieldedInstanceConfig)
        metadata := (np.config.map (fun c => c.metadata)).getD []
        linux_node_config := np.config.bind (fun c => c.linuxNodeConfig) } }

/-- Model of `_extract_node_pools`. -/
def extract_node_pools (node_pools : List NodePool) (is_dr : Bool) : List NodePoolInfo :=
  node_pools.map (nodePoolInfo is_dr)

/-- Primary GKE cluster record (`primary_cluster_info`); `none` models
the TypeError path inside `_extract_ip_allocation_policy`. -/
def containerClusterInfo (ipr : IpRanges) (c : ContainerCluster) :
    Option ContainerClusterInfo := do
  let ipa ← extract_ip_allocation_policy c.ipAllocationPolicy false
  pure
    { name := c.name
      subnetwork := c.subnetwork
      default_max_pods_per_node := c.defaultMaxPodsConstraint.maxPodsPerNode
      ip_allocation_policy := ipa
      -- `cluster['deletionProtection'] if cluster.get('deletionProtection') else True`:
      -- the truthy branch can only yield True, so the field is always True
      deletion_protection := if c.deletionProtection = some true then true else true
      logging_service := c.loggingService
      monitoring_service := c.monitoringService
      release_channel := match c.releaseChannel with
        | some rc => ⟨rc.channel⟩
        | none => ⟨some "UNSPECIFIED"⟩
      private_cluster_config := extract_private_cluster_config ipr c.privateClusterConfig false
      addons_config := extract_addons_config c.addonsConfig
      database_encryption := extract_database_encryption c.databaseEncryption
      cluster_autoscaling := extract_cluster_autoscaling c.autoscaling
      node_pools := extract_node_pools c.nodePools false }

/-- DR GKE cluster record (`dr_cluster_info`). -/
def drContainerClusterInfo (ipr : IpRanges) (c : ContainerCluster) :
    Option ContainerClusterInfo := do
  let ipa ← extract_ip_allocation_policy c.ipAllocationPolicy true
  pure
    { name := c.name ++ "-dr"
      subnetwork := c.subnetwork ++ "-dr"
      default_max_pods_per_node := c.defaultMaxPodsConstraint.maxPodsPerNode
      ip_allocation_policy := ipa
      deletion_protection := false
      logging_service := c.loggingService
      monitoring_service := c.monitoringService
      release_channel := match c.releaseChannel with
        | some rc => ⟨rc.channel⟩
        | none => ⟨some "UNSPECIFIED"⟩
      private_cluster_config := extract_private_cluster_config ipr c.privateClusterConfig true
      addons_config := extract_addons_config c.addonsConfig
      database_encryption := extract_database_encryption c.databaseEncryption
      cluster_autoscaling := extract_cluster_autoscaling c.autoscaling
      node_pools := extract_node_pools c.nodePools true }

/-- Model of `get_container_clusters` (gcloud filters by subnetwork before the
list reaches this function). -/
def get_container_clusters (ipr : IpRanges) (fetch : Except String (List ContainerCluster)) :
    Except String (List ContainerClusterInfo × List ContainerClusterInfo) :=
  match fetch with
  | .error e => .error ("Error getting container clusters: " ++ e)
  | .ok cs =>
    match cs.mapM (fun c => do
        pure ((← containerClusterInfo ipr c), (← drContainerClusterInfo ipr c))) with
    | none => .error "Error getting container clusters: unsupported operand type"
    | some pairs => .ok (pairs.map Prod.fst, pairs.map Prod.snd)

/-! ## Firewall rules (`get_firewall_rules`, `_get_source_ranges`) -/

structure FirewallPortRule where
  ipProtocol : Option String  -- `rule.get('IPProtocol', '')`
  ports : List String  -- `rule.get('ports', [])`
deriving DecidableEq

structure Firewall where
  name : String
  description : Option String
  priority : Option Int
  direction : Option String
  disabled : Option Bool
  destinationRanges : List String
  sourceTags : List String
  -- `firewall.get('targetTags')`: `none` when the key is absent
  targetTags : Option (List String)
  sourceServiceAccounts : List String
  targetServiceAccounts : List String
  allowed : List FirewallPortRule
  denied : List FirewallPortRule
deriving DecidableEq

structure PortRuleInfo where
  ip_protocol : String
  ports : List String
deriving DecidableEq

structure FirewallInfo where
  name : String
  description : String
  priority : Int
  direction : String
  disabled : Bool
  -- `_get_source_ranges` uses `.get` without defaults, so entries may be None
  source_ranges : List (Option String)
  destination_ranges : List String
  source_tags : List String
  target_tags : List String
  source_service_accounts : List String
  target_service_accounts : List String
  allowed : List PortRuleInfo
  denied : List PortRuleInfo
deriving DecidableEq, Inhabited

/-- Model of `_get_source_ranges`. -/
def get_source_ranges (ipr : IpRanges) (name : String) (is_dr : Bool) : List (Option String) :=
  if containsSubStr "allow-gke" name then
    if is_dr then
      [ipr.dr.subnet_ip_cidr_range, ipr.dr.secondary_ip_range_pod, ipr.dr.secondary_ip_range_svc]
    else
      [ipr.primary.subnet_ip_cidr_range, ipr.primary.secondary_ip_range_pod,
       ipr.primary.secondary_ip_range_svc]
  else if containsSubStr "allow-vms" name then
    if is_dr then [ipr.dr.subnet_ip_cidr_range] else [ipr.primary.subnet_ip_cidr_range]
  else []

/-- Primary firewall record (`primary_firewall_info`).  Building
`target_tags` evaluates `firewall.get('targetTags')[0]`: with the key
absent that is `None[0]` (TypeError) and with an empty list it is an
IndexError — both modelled by `none` instead of a produced record. -/
def firewallInfo (ipr : IpRanges) (fw : Firewall) : Option FirewallInfo :=
  match fw.targetTags with
  | some (t0 :: _) => some
    { name := fw.name
      description := getS fw.description
      priority := fw.priority.getD 0
      direction := getS fw.direction
      disabled := fw.disabled.getD false
      source_ranges := get_source_ranges ipr fw.name false
      destination_ranges := fw.destinationRanges
      source_tags := fw.sourceTags
      target_tags := [t0]
      source_service_accounts := fw.sourceServiceAccounts
      target_service_accounts := fw.targetServiceAccounts
      allowed := fw.allowed.map (fun r => { ip_protocol := getS r.ipProtocol, ports := r.ports })
      denied := fw.denied.map (fun r => { ip_protocol := getS r.ipProtocol, ports := r.ports }) }
  | _ => none

/-- DR firewall record (`dr_firewall_info`). -/
def drFirewallInfo (ipr : IpRanges) (fw : Firewall) : Option FirewallInfo :=
  match fw.targetTags with
  | some (t0 :: _) => some
    { name := fw.name ++ "-dr"
      description := getS fw.description
      priority := fw.priority.getD 0
      direction := getS fw.direction
      disabled := fw.disabled.getD false
      source_ranges := get_source_ranges ipr fw.name true
      destination_ranges := fw.destinationRanges
      source_tags := fw.sourceTags
      target_tags := [t0 ++ "-dr"]
      source_service_accounts := fw.sourceServiceAccounts
      target_service_accounts := fw.targetServiceAccounts
      allowed := fw.allowed.map (fun r => { ip_protocol := getS r.ipProtocol, ports := r.ports })
      denied := fw.denied.map (fun r => { ip_protocol := getS r.ipProtocol, ports := r.ports }) }
  | _ => none

/-- Model of `re.search('^dpc.*-allow-.*', name)` as a predicate: the name starts
with `dpc` and contains `-allow-` (an occurrence can never overlap the
`dpc` head, so plain containment coincides with the regex). -/
def dpcAllowPattern (name : String) : Bool :=
  "dpc".data.isPrefixOf name.data && containsSubStr "-allow-" name

/-- Model of `get_firewall_rules`: drop records failing the optional name filter
(`continue`), then build both site records per kept rule; the first
tag fault aborts the whole call. -/
def get_firewall_rules (nameFilter : Option (String → Bool)) (ipr : IpRanges)
    (fetch : Except String (List Firewall)) :
    Except String (List FirewallInfo × List FirewallInfo) :=
  match fetch with
  | .error e => .error ("Error getting firewall rules: " ++ e)
  | .ok fws =>
    let kept := fws.filter (fun fw =>
      match nameFilter with
      | some p => p fw.name
      | none => true)
    match kept.mapM (fun fw => do
        pure ((← firewallInfo ipr fw), (← drFirewallInfo ipr fw))) with
    | none => .error "Error getting firewall rules: target tags fault"
    | some pairs => .ok (pairs.map Prod.fst, pairs.map Prod.snd)

/-! ## Compute addresses (`get_compute_addresses`) -/

structure ComputeAddress where
  name : String
  description : Option String
  addressType : Option String
  purpose : Option String
  ipVersion : Option String
  networkTier : Option String
  subnetwork : Option String
deriving DecidableEq

structure AddressInfo where
  name : String
  description : String
  address_type : String
  purpose : String
  ip_version : Option String
  network_tier : Option String
  subnetwork : Option String
deriving DecidableEq

/-- Primary compute-address record. -/
def addressInfo (a : ComputeAddress) : AddressInfo :=
  { name := a.name
    description := getS a.description
    address_type := getS a.addressType
    purpose := getS a.purpose
    ip_version := a.ipVersion
    network_tier := a.networkTier
    subnetwork := if strTruthy a.subnetwork then some (lastSeg (getS a.subnetwork)) else none }

/-- DR compute-address record. -/
def drAddressInfo (a : ComputeAddress) : AddressInfo :=
  { name := a.name ++ "-dr"
    description := getS a.description
    address_type := getS a.addressType
    purpose := getS a.purpose
    ip_version := a.ipVersion
    network_tier := a.networkTier
    subnetwork :=
      if strTruthy a.subnetwork then some (lastSeg (getS a.subnetwork) ++ "-dr") else none }

/-- Model of `get_compute_addresses`. -/
def get_compute_addresses (fetch : Except String (List ComputeAddress)) :
    Except String (List AddressInfo × List AddressInfo) :=
  match fetch with
  | .error e => .error ("Error getting compute addresses: " ++ e)
  | .ok as0 => .ok (as0.map addressInfo, as0.map drAddressInfo)

/-! ## VPC access connectors (`get_vpc_access_connectors`) -/

structure ConnectorSubnet where
  name : String
deriving DecidableEq

structure VpcConnector where
  name : String
  minThroughput : Int
  maxThroughput : Int
  machineType : String
  -- `connector['subnet']` is indexed directly; `none` models a null value
  subnet : Option ConnectorSubnet
deriving DecidableEq

structure ConnectorSubnetInfo where
  name : String
deriving DecidableEq

structure ConnectorInfo where
  name : String
  min_throughput : Int
  max_throughput : Int
  machine_type : String
  subnet : ConnectorSubnetInfo
deriving DecidableEq

/-- Primary connector record (`connector_info`). -/
def connectorInfo (c : VpcConnector) : ConnectorInfo :=
  { name := lastSeg c.name
    min_throughput := c.minThroughput
    max_throughput := c.maxThroughput
    machine_type := c.machineType
    subnet := match c.subnet with
      | some s => ⟨s.name⟩
      | none => ⟨lastSeg c.name⟩ }

/-- DR connector record (`dr_connector_info`). -/
def drConnectorInfo (c : VpcConnector) : ConnectorInfo :=
  { name := lastSeg c.name ++ "-dr"
    min_throughput := c.minThroughput
    max_throughput := c.maxThroughput
    machine_type := c.machineType
    subnet := match c.subnet with
      | some s => ⟨s.name ++ "-dr"⟩
      | none => ⟨lastSeg c.name ++ "-dr"⟩ }

/-- Model of `get_vpc_access_connectors`. -/
def get_vpc_access_connectors (fetch : Except String (List VpcConnector)) :
    Except String (List ConnectorInfo × List ConnectorInfo) :=
  match fetch with
  | .error e => .error ("Error getting VPC Access Connectors: " ++ e)
  | .ok cs => .ok (cs.map connectorInfo, cs.map drConnectorInfo)

/-! ## Redis instances (`get_redis_instances`) -/

structure RedisPersistence where
  persistenceMode : Option String
deriving DecidableEq

structure RedisInstance where
  name : String
  displayName : Option String
  redisVersion : Option String
  tier : Option String
  memorySizeGb : Option Int
  port : Option Int
  connectMode : Option String
  authEnabled : Option Bool
  transitEncryptionMode : Option String
  redisConfigs : List (String × String)  -- `.get('redisConfigs', {})`
  replicaCount : Option Int
  readReplicasMode : Option String
  persistenceConfig : Option RedisPersistence  -- `none` ≡ absent/empty (falsy)
deriving DecidableEq

structure PersistenceInfo where
  persistence_mode : String
deriving DecidableEq

structure RedisInfo where
  name : String
  display_name : String
  redis_version : String
  tier : String
  memory_size_gb : Int
  port : Int
  connect_mode : String
  auth_enabled : Bool
  transit_encryption_mode : String
  redis_configs : List (String × String)
  replica_count : Int
  read_replicas_mode : String
  persistence_config : Option PersistenceInfo
deriving DecidableEq

/-- Primary Redis record (`primary_instance_info`). -/
def redisInfo (ri : RedisInstance) : RedisInfo :=
  { name := lastSeg ri.name
    display_name := getS ri.displayName
    redis_version := getS ri.redisVersion
    tier := getS ri.tier
    memory_size_gb := ri.memorySizeGb.getD 0
    port := ri.port.getD 6379
    connect_mode := getS ri.connectMode
    auth_enabled := ri.authEnabled.getD false
    transit_encryption_mode := getS ri.transitEncryptionMode
    redis_configs := ri.redisConfigs
    replica_count := ri.replicaCount.getD 0
    read_replicas_mode := getS ri.readReplicasMode
    persistence_config := ri.persistenceConfig.map (fun pc =>
      ⟨getS pc.persistenceMode⟩) }

/-- DR Redis record (`dr_instance_info`). -/
def drRedisInfo (ri : RedisInstance) : RedisInfo :=
  { name := lastSeg ri.name ++ "-dr"
    display_name := getS ri.displayName ++ "-dr"
    redis_version := getS ri.redisVersion
    tier := getS ri.tier
    memory_size_gb := ri.memorySizeGb.getD 0
    port := ri.port.getD 6379
    connect_mode := getS ri.connectMode
    auth_enabled := ri.authEnabled.getD false
    transit_encryption_mode := getS ri.transitEncryptionMode
    redis_configs := ri.redisConfigs
    replica_count := ri.replicaCount.getD 0
    read_replicas_mode := getS ri.readReplicasMode
    persistence_config := ri.persistenceConfig.map (fun pc =>
      ⟨getS pc.persistenceMode⟩) }

/-- Model of `get_redis_instances`. -/
def get_redis_instances (fetch : Except String (List RedisInstance)) :
    Except String (List RedisInfo × List RedisInfo) :=
  match fetch with
  | .error e => .error ("Error getting Redis instances: " ++ e)
  | .ok ris => .ok (ris.map redisInfo, ris.map drRedisInfo)

/-! ## Cloud SQL (`get_sql_databases`, `get_sql_postgres_instances`) -/

structure SqlDatabase where
  name : Option String  -- `database.get('name')`
deriving DecidableEq

/-- Model of `get_sql_databases`: a fetch failure is caught and degrades to an
empty list (the documented soft-failure path); otherwise every database
name other than the literal `postgres` is collected (an absent name is
appended as `None`). -/
def get_sql_databases (fetch : Except String (List SqlDatabase)) : List (Option String) :=
  match fetch with
  | .error _ => []
  | .ok dbs => (dbs.filter (fun d => d.name ≠ some "postgres")).map (fun d => d.name)

structure SqlBackupConfiguration where
  enabled : Option Bool
  binaryLoggingEnabled : Option Bool
deriving DecidableEq

structure SqlIpConfiguration where
  ipv4Enabled : Option Bool
  privateNetwork : Option String
deriving DecidableEq

/-- Model of `instance['settings']` fields; `databaseFlags` is passed through
opaque as name/value pairs. -/
structure SqlSettings where
  tier : Option String
  databaseFlags : List (String × String)
  backupConfiguration : Option SqlBackupConfiguration  -- `none` ≡ absent/empty (falsy)
  ipConfiguration : Option SqlIpConfiguration  -- `none` ≡ absent/empty (falsy)
  availabilityType : Option String
  dataDiskSizeGb : Option Int
  dataDiskType : Option String
deriving DecidableEq

structure SqlInstance where
  name : String
  databaseVersion : Option String
  instanceType : Option String
  settings : Option SqlSettings  -- `.get('settings', {})`
deriving DecidableEq

structure BackupConfigurationInfo where
  enabled : Bool
  binary_log_enabled : Bool
deriving DecidableEq

structure IpConfigurationInfo where
  ipv4_enabled : Bool
deriving DecidableEq

structure SqlInstanceInfo where
  name : String
  database_version : String
  instance_type : String
  machine_type : String
  database_flags : List (String × String)
  deletion_protection : Bool
  backup_configuration : Option BackupConfigurationInfo
  ip_configuration : Option IpConfigurationInfo
  availability_type : String
  data_disk_size_gb : Int
  data_disk_type : String
  databases : List (Option String)
deriving DecidableEq

/-- The selection test: a PostgreSQL version, a truthy private network,
and `/networks/<network_name>` occurring inside it. -/
def sqlInstanceSelected (networkName : String) (i : SqlInstance) : Bool :=
  "POSTGRES".data.isPrefixOf (getS i.databaseVersion).data
    && strTruthy (i.settings.bind (fun s => s.ipConfiguration.bind (fun c => c.privateNetwork)))
    && containsSubStr ("/networks/" ++ networkName)
        (getS (i.settings.bind (fun s => s.ipConfiguration.bind (fun c => c.privateNetwork))))

/-- The field reshaping shared by the primary and DR SQL records. -/
def sqlInstanceBase (i : SqlInstance) (databases : List (Option String)) :
    SqlInstanceInfo :=
  { name := lastSeg i.name
    database_version := getS i.databaseVersion
    instance_type := getS i.instanceType
    machine_type := getS (i.settings.bind (fun s => s.tier))
    database_flags := (i.settings.map (fun s => s.databaseFlags)).getD []
    deletion_protection := true
    backup_configuration :=
      (i.settings.bind (fun s => s.backupConfiguration)).map (fun b =>
        { enabled := b.enabled.getD false
          binary_log_enabled := b.binaryLoggingEnabled.getD false })
    ip_configuration :=
      (i.settings.bind (fun s => s.ipConfiguration)).map (fun c =>
        { ipv4_enabled := c.ipv4Enabled.getD false })
    availability_type := getS (i.settings.bind (fun s => s.availabilityType))
    data_disk_size_gb := (i.settings.bind (fun s => s.dataDiskSizeGb)).getD 0
    data_disk_type := getS (i.settings.bind (fun s => s.dataDiskType))
    databases := databases }

/-- Primary SQL record (`primary_instance_info`). -/
def sqlInstanceInfo (i : SqlInstance) (databases : List (Option String)) : SqlInstanceInfo :=
  sqlInstanceBase i databases

/-- DR SQL record (`dr_instance_info`): suffixed name, deletion
protection off. -/
def drSqlInstanceInfo (i : SqlInstance) (databases : List (Option String)) : SqlInstanceInfo :=
  { sqlInstanceBase i databases with
      name := lastSeg i.name ++ "-dr"
      deletion_protection := false }

/-- Model of `get_sql_postgres_instances`: select the PostgreSQL instances on the
reader's network, list each one's databases through the soft-failing
helper (`dbFetch` gives the per-instance command outcome), and build both
site records. -/
def get_sql_postgres_instances (networkName : String)
    (fetch : Except String (List SqlInstance))
    (dbFetch : String → Except String (List SqlDatabase)) :
    Except String (List SqlInstanceInfo × List SqlInstanceInfo) :=
  match fetch with
  | .error e => .error ("Error getting PostgreSQL instances: " ++ e)
  | .ok is0 =>
    let kept := is0.filter (sqlInstanceSelected networkName)
    .ok (kept.map (fun i => sqlInstanceInfo i (get_sql_databases (dbFetch (lastSeg i.name)))),
         kept.map (fun i => drSqlInstanceInfo i (get_sql_databases (dbFetch (lastSeg i.name)))))

/-! ## Site aggregation (`get_all_resources`) -/

structure NetworkNameInfo where
  name : String
deriving DecidableEq

/-- One output document (`all_resources` / `all_resources_dr`). -/
structure SiteDocument where
  timestamp : String
  project : String
  region : String
  compute_network : NetworkNameInfo
  compute_subnetworks : List SubnetworkInfo
  nat_routers : List (String × RouterInfo)
  vpc_access_connectors : List ConnectorInfo
  dataproc_cluster : Option DataprocClusterInfo
  container_clusters : List ContainerClusterInfo
  cloud_functions : List CloudFunctionInfo
  cloud_run_services : List RunServiceInfo
  firewall_rules : List FirewallInfo
  compute_addresses : List AddressInfo
  redis_instances : List RedisInfo
  sql_postgres_instances : List SqlInstanceInfo
deriving DecidableEq

/-- The reader's configuration (constructor arguments plus the two
`datetime.now()` readings taken while building the result skeletons). -/
structure ReaderConfig where
  project_id : String
  network_name : String
  region : String
  dr_region : String
  ip_ranges : IpRanges
  timestamp : String
  timestampDr : String

/-- The outcome of every external `gcloud ... list` invocation one run
performs (`.error` = non-zero exit or unparseable JSON).  The
per-instance database listing is keyed by instance name. -/
structure Fetches where
  subnetworks : Except String (List Subnetwork)
  routers : Except String (List Router)
  dataprocClusters : Except String (List DataprocCluster)
  cloudFunctions : Except String (List CloudFunction)
  runServices : Except String (List RunService)
  firewalls : Except String (List Firewall)
  addresses : Except String (List ComputeAddress)
  containerClusters : Except String (List ContainerCluster)
  redisInstances : Except String (List RedisInstance)
  sqlInstances : Except String (List SqlInstance)
  sqlDatabases : String → Except String (List SqlDatabase)
  vpcConnectors : Except String (List VpcConnector)

/-- Model of `get_all_resources`: run every kind getter in source order, starting
from `self.subnetwork_name = 'default'`; the first error aborts the whole
aggregation (re-raised with the wrapping message), and only a fully
assembled pair of documents is ever returned. -/
def get_all_resources (cfg : ReaderConfig) (f : Fetches) :
    Except String (SiteDocument × SiteDocument) :=
  (((get_compute_subnetworks cfg.ip_ranges "default" f.subnetworks).bind fun subs =>
    (get_nat_routers f.routers).bind fun nats =>
    (get_dataproc_clusters subs.2.2 f.dataprocClusters).bind fun dpc =>
    (get_cloudfunctions f.cloudFunctions).bind fun fns =>
    (get_cloudrun subs.2.2 f.runServices).bind fun runs =>
    (get_firewall_rules (some dpcAllowPattern) cfg.ip_ranges f.firewalls).bind fun fwr =>
    (get_compute_addresses f.addresses).bind fun addrs =>
    (get_container_clusters cfg.ip_ranges f.containerClusters).bind fun ccs =>
    (get_redis_instances f.redisInstances).bind fun reds =>
    (get_sql_postgres_instances cfg.network_name f.sqlInstances f.sqlDatabases).bind fun sqls =>
    (get_vpc_access_connectors f.vpcConnectors).bind fun vacs =>
    Except.ok
      ({ timestamp := cfg.timestamp
         project := cfg.project_id
         region := cfg.region
         compute_network := ⟨cfg.network_name⟩
         compute_subnetworks := subs.1
         nat_routers := nats.1
         vpc_access_connectors := vacs.1
         dataproc_cluster := dpc.1
         container_clusters := ccs.1
         cloud_functions := fns.1
         cloud_run_services := runs.1
         firewall_rules := fwr.1
         compute_addresses := addrs.1
         redis_instances := reds.1
         sql_postgres_instances := sqls.1 },
       { timestamp := cfg.timestampDr
         project := cfg.project_id
         region := cfg.dr_region
         compute_network := ⟨cfg.network_name⟩
         compute_subnetworks := subs.2.1
         nat_routers := nats.2
         vpc_access_connectors := vacs.2
         dataproc_cluster := dpc.2
         container_clusters := ccs.2
         cloud_functions := fns.2
         cloud_run_services := runs.2
         firewall_rules := fwr.2
         compute_addresses := addrs.2
         redis_instances := reds.2
         sql_postgres_instances := sqls.2 })).mapError
    (fun e => "Error fetching all resources: " ++ e))

/-! ## Terraform plan wrapper (`terraform_wrapper.py`, `_run_terraform_plan`)

The subprocess invocation is external; what the wrapper adds is the
classification of the child's exit code into a success flag and one of
four console messages. -/

inductive PlanMessage where
  | noChangesNeeded
  | planFailed
  | changesDetected
  | unexpectedCode
deriving DecidableEq

/-- Model of `_run_terraform_plan`'s result classification of the terraform exit
code (`subprocess.returncode : Int`, negative on signals). -/
def run_terraform_plan (returnCode : Int) : Bool × PlanMessage :=
  if returnCode = 0 then (true, .noChangesNeeded)
  else if returnCode = 1 then (false, .planFailed)
  else if returnCode = 2 then (true, .changesDetected)
  else (false, .unexpectedCode)

/-! ## tfvars file writing (`gcp_resource_reader.py` `main`,
`terraform_wrapper.py` `_generate_gcp_resources`)

Both call sites run `open(path, 'w')` followed by `json.dump(..., f)` on
the final output path, for the primary file and then the DR file.  The
file system is a map from path to optional content; opening in `'w'`
mode truncates immediately, and a dump appends to the open file. -/

inductive FileOp where
  | openTrunc (path : String)
  | writeData (path : String) (data : String)

/-- Effect of one operation on the file-system state. -/
def applyOp (fs : String → Option String) : FileOp → String → Option String
  | .openTrunc p => fun q => if q = p then some "" else fs q
  | .writeData p d => fun q => if q = p then some ((fs q).getD "" ++ d) else fs q

/-- Run a sequence of file operations. -/
def runOps (fs : String → Option String) (ops : List FileOp) : String → Option String :=
  ops.foldl applyOp fs

/-- The operation sequence both writers issue: truncate-and-write the
primary tfvars path, then truncate-and-write the DR tfvars path — no
temporary path, no rename, no verification. -/
def tfvarsWritePlan (primaryPath drPath primaryDoc drDoc : String) : List FileOp :=
  [.openTrunc primaryPath, .writeData primaryPath primaryDoc,
   .openTrunc drPath, .writeData drPath drDoc]

/-- Modelled from the spec: "writing is all-or-nothing — a partially
written file must not be left in place on failure (write to a temporary
path and rename, or write then verify)".  After any failure point (any
prefix of the operation sequence) the output path holds either its
original content or the complete new document. -/
def allOrNothing (ops : List FileOp) (fs0 : String → Option String)
    (path : String) (newDoc : String) : Prop :=
  ∀ k, runOps fs0 (ops.take k) path = fs0 path ∨
       runOps fs0 (ops.take k) path = some newDoc

/-! ## Sample records used by the witnesses -/

/-- A sample fetched node pool whose primary initial node count is 7. -/
def sampleNodePool : NodePool :=
  { name := "druid-pool"
    initialNodeCount := some 7
    autoscaling := none
    maxPodsConstraint := none
    management := none
    upgradeSettings := none
    config := none }

/-- A sample IP-range configuration. -/
def sampleIpRanges : IpRanges :=
  { primary :=
      { subnet_ip_cidr_range := some "10.1.0.0/24"
        secondary_ip_range_pod := some "10.1.1.0/24"
        secondary_ip_range_svc := some "10.1.2.0/24"
        vpc_connector_ip_cidr_range := some "10.1.3.0/28"
        gke_master_ip_cidr_range := some "10.1.4.0/28" }
    dr :=
      { subnet_ip_cidr_range := some "10.2.0.0/24"
        secondary_ip_range_pod := some "10.2.1.0/24"
        secondary_ip_range_svc := some "10.2.2.0/24"
        vpc_connector_ip_cidr_range := some "10.2.3.0/28"
        gke_master_ip_cidr_range := some "10.2.4.0/28" } }

/-- A sample fetched firewall rule with an empty target-tags list. -/
def sampleFirewall : Firewall :=
  { name := "dpc-stg-allow-gke"
    description := none
    priority := some 1000
    direction := some "INGRESS"
    disabled := none
    destinationRanges := []
    sourceTags := []
    targetTags := some []
    sourceServiceAccounts := []
    targetServiceAccounts := []
    allowed := []
    denied := [] }

/-- A sample fetched DataProc cluster on subnetwork `sub1`. -/
def sampleDpcCluster : DataprocCluster :=
  { clusterName := "druid"
    config :=
      { gceClusterConfig :=
          { internalIpOnly := some true
            subnetworkUri := "projects/p/regions/r/subnetworks/sub1"
            tags := some ["dpc"] }
        masterConfig := none
        workerConfig := none
        softwareConfig := none } }

/-- A sample reader configuration. -/
def sampleConfig : ReaderConfig :=
  { project_id := "proj"
    network_name := "vpc1"
    region := "us-west1"
    dr_region := "us-east1"
    ip_ranges := sampleIpRanges
    timestamp := "t0"
    timestampDr := "t1" }

/-- A run in which every fetch succeeds (with no resources) except the
Redis listing, which fails. -/
def sampleFetchesRedisDown : Fetches :=
  { subnetworks := .ok []
    routers := .ok []
    dataprocClusters := .ok []
    cloudFunctions := .ok []
    runServices := .ok []
    firewalls := .ok []
    addresses := .ok []
    containerClusters := .ok []
    redisInstances := .error "gcloud redis instances list exited 1"
    sqlInstances := .ok []
    sqlDatabases := fun _ => .ok []
    vpcConnectors := .ok [] }

/-- Model of a fetched Cloud Function record, for the witness. -/
def sampleCloudFunction : CloudFunction :=
  { name := "projects/p/locations/r/functions/fn1"
    runtime := "python39"
    availableMemoryMb := 256
    sourceArchiveUrl := "gs://bucket/path/obj.zip"
    timeout := "60s"
    entryPoint := "main_handler"
    vpcConnector := "projects/p/locations/r/connectors/sub1-func"
    environmentVariables := []
    minInstances := none
    maxInstances := some 3 }

/-- Model of a fetched GKE cluster record, for the witness. -/
def sampleContainerCluster : ContainerCluster :=
  { name := "gke1"
    subnetwork := "sub1"
    defaultMaxPodsConstraint := ⟨110⟩
    ipAllocationPolicy := none
    deletionProtection := none
    loggingService := "logging.googleapis.com/kubernetes"
    monitoringService := "monitoring.googleapis.com/kubernetes"
    releaseChannel := none
    privateClusterConfig := none
    addonsConfig := none
    databaseEncryption := none
    autoscaling := none
    nodePools := [sampleNodePool] }

/-- Model of a fetched firewall rule that does carry a target tag. -/
def sampleFirewallTagged : Firewall :=
  { sampleFirewall with targetTags := some ["dpc-node"] }


/-! ## Theorems -/

theorem parseOctet_le (cs : List Char) (v : Nat) (h : parseOctet cs = some v) :
    v ≤ 255 := by
  unfold parseOctet at h
  split_ifs at h
  simp only [Option.some.injEq] at h
  omega

theorem parseIPv4Addr_lt (cs : List Char) (a : Nat) (h : parseIPv4Addr cs = some a) :
    a < 2 ^ 32 := by
  unfold parseIPv4Addr at h
  split at h
  case h_1 s0 s1 s2 s3 =>
    simp only [Option.bind_eq_bind, Option.bind_eq_some, Option.pure_def,
      Option.some.injEq] at h
    obtain ⟨o0, h0, o1, h1, o2, h2, o3, h3, hval⟩ := h
    have b0 := parseOctet_le _ _ h0
    have b1 := parseOctet_le _ _ h1
    have b2 := parseOctet_le _ _ h2
    have b3 := parseOctet_le _ _ h3
    have : (2 : Nat) ^ 32 = 4294967296 := by norm_num
    omega
  case h_2 => simp at h

theorem prefixFromMaskInt_le (m q : Nat) (h : prefixFromMaskInt m = some q) : q ≤ 32 := by
  have hmem := List.mem_of_find?_eq_some h
  have := List.mem_range.mp hmem
  omega

theorem parsePrefixLen_le (cs : List Char) (q : Nat) (h : parsePrefixLen cs = some q) :
    q ≤ 32 := by
  unfold parsePrefixLen at h
  split_ifs at h with h1 h2
  · simp only [Option.some.injEq] at h
    omega
  · split at h
    · exact absurd h (by simp)
    · split at h
      · rename_i hq
        simp only [Option.some.injEq] at h
        subst h
        exact prefixFromMaskInt_le _ _ hq
      · exact prefixFromMaskInt_le _ _ h

theorem parseCIDR_bounds (s : String) (a p : Nat) (h : parseCIDR s = some (a, p)) :
    a < 2 ^ 32 ∧ p ≤ 32 := by
  unfold parseCIDR at h
  split at h
  · rcases Option.map_eq_some'.mp h with ⟨v, hv, heq⟩
    have ha : a = v := by
      have := congrArg Prod.fst heq
      simpa using this.symm
    have hp : p = 32 := by
      have := congrArg Prod.snd heq
      simpa using this.symm
    subst ha hp
    exact ⟨parseIPv4Addr_lt _ _ hv, le_refl 32⟩
  · simp only [Option.bind_eq_bind, Option.bind_eq_some, Option.pure_def,
      Option.some.injEq] at h
    obtain ⟨addr, haddr, plen, hplen, heq⟩ := h
    have ha : a = addr := by
      have := congrArg Prod.fst heq
      simpa using this.symm
    have hp : p = plen := by
      have := congrArg Prod.snd heq
      simpa using this.symm
    subst ha hp
    exact ⟨parseIPv4Addr_lt _ _ haddr, parsePrefixLen_le _ _ hplen⟩
  · simp at h

/-- C1 counterexample: the spec says a prefix length of 31 yields the
sentinel `"N/A"`, but on the valid /31 CIDR `10.0.0.0/31` the gateway
calculator returns `10.0.0.1` (the computed gateway lies between the /31
network and broadcast addresses, so the membership check passes). -/
theorem gateway_address_claim_false_at_slash31 :
    parseCIDR "10.0.0.0/31" = some (167772160, 31) ∧
    get_gateway_address "10.0.0.0/31" = "10.0.0.1" ∧
    get_gateway_address "10.0.0.0/31" ≠ "N/A" := by
  refine ⟨by decide, by decide, by decide⟩

/-- C1 (amended): for every parseable IPv4 CIDR string with prefix
length at most 31 the gateway calculator returns the network address
incremented by one in dotted-decimal form; for prefix length 32 or for
an unparseable CIDR string it returns the sentinel `"N/A"`; being a
total function, it never raises. -/
theorem gateway_address_amended (s : String) (a p : Nat) :
    (parseCIDR s = some (a, p) → p ≤ 31 →
      get_gateway_address s = ipv4ToString (networkOf a p + 1)) ∧
    (parseCIDR s = some (a, 32) ∨ parseCIDR s = none →
      get_gateway_address s = "N/A") := by
  constructor
  · intro hp hle
    obtain ⟨ha, _⟩ := parseCIDR_bounds s a p hp
    have hd2 : 2 ≤ 2 ^ (32 - p) := by
      calc (2 : Nat) = 2 ^ 1 := rfl
        _ ≤ 2 ^ (32 - p) := Nat.pow_le_pow_right (by norm_num) (by omega)
    have hdvd : 2 ^ (32 - p) ∣ 2 ^ 32 := pow_dvd_pow 2 (by omega)
    have hnet : a / 2 ^ (32 - p) * 2 ^ (32 - p) + 1 < 2 ^ 32 := by
      have h1 : a / 2 ^ (32 - p) + 1 ≤ 2 ^ 32 / 2 ^ (32 - p) :=
        Nat.div_lt_div_of_lt_of_dvd hdvd ha
      have h3 : (a / 2 ^ (32 - p) + 1) * 2 ^ (32 - p) ≤
          2 ^ 32 / 2 ^ (32 - p) * 2 ^ (32 - p) := Nat.mul_le_mul_right _ h1
      rw [Nat.div_mul_cancel hdvd, Nat.add_mul, one_mul] at h3
      omega
    simp only [get_gateway_address, hp]
    rw [if_neg (by omega), if_pos ⟨by omega, by omega⟩]
    rfl
  · intro hcase
    rcases hcase with h32 | hnone
    · simp only [get_gateway_address, h32, Nat.sub_self, pow_zero, Nat.div_one, mul_one]
      split_ifs with hof hin
      · rfl
      · omega
      · rfl
    · simp only [get_gateway_address, hnone]

/-- Witness for `gateway_address_amended` at the spec's own examples:
`10.0.0.0/24` (network 167772160) and an unparseable string. -/
theorem gateway_address_amended_witness :
    get_gateway_address "10.0.0.0/24" = ipv4ToString (networkOf 167772160 24 + 1) ∧
    get_gateway_address "not-a-cidr" = "N/A" :=
  ⟨(gateway_address_amended "10.0.0.0/24" 167772160 24).1 (by decide) (by decide),
   (gateway_address_amended "not-a-cidr" 0 0).2 (Or.inr (by decide))⟩

/-- On a line without newlines, the regex pass is exactly "drop one
trailing `%`". -/
theorem strip_eq_dropOne : ∀ l : List Char, '\n' ∉ l →
    stripPercentEOL l = dropOnePercent l
  | [], _ => rfl
  | [_], _ => rfl
  | c :: d :: rest, h => by
    have hd : d ≠ '\n' := fun he => h (by simp [he])
    rw [stripPercentEOL, dropOnePercent, if_neg (fun hc => hd hc.2)]
    rw [strip_eq_dropOne (d :: rest) (fun hm => h (List.mem_cons_of_mem _ hm))]

/-- A leading newline is never part of a `%$` match. -/
theorem strip_newline_cons (rest : List Char) :
    stripPercentEOL ('\n' :: rest) = '\n' :: stripPercentEOL rest := by
  cases rest with
  | nil => decide
  | cons d rest' =>
    rw [stripPercentEOL, if_neg]
    intro hc
    exact absurd hc.1 (by decide)

/-- The regex pass on `line ++ '\n' ++ rest`: one trailing `%` of the
line is removed and the scan continues after the newline. -/
theorem strip_append_newline : ∀ l rest : List Char, '\n' ∉ l →
    stripPercentEOL (l ++ '\n' :: rest) = dropOnePercent l ++ '\n' :: stripPercentEOL rest
  | [], rest, _ => by simpa using strip_newline_cons rest
  | [c], rest, h => by
    by_cases hp : c = '%'
    · subst hp
      simp [List.cons_append, List.nil_append, stripPercentEOL, dropOnePercent]
    · simp only [List.cons_append, List.nil_append]
      rw [stripPercentEOL, if_neg (fun hc => hp hc.1), strip_newline_cons]
      simp [dropOnePercent, hp]
  | c :: d :: l2, rest, h => by
    have hd : d ≠ '\n' := fun he => h (by simp [he])
    simp only [List.cons_append]
    rw [stripPercentEOL, if_neg (fun hc => hd hc.2)]
    rw [show d :: (l2 ++ '\n' :: rest) = (d :: l2) ++ '\n' :: rest from rfl]
    rw [strip_append_newline (d :: l2) rest (fun hm => h (List.mem_cons_of_mem _ hm))]
    rw [dropOnePercent]
    simp

/-- The regex pass distributes over the line structure of a document. -/
theorem strip_join : ∀ ls : List (List Char), (∀ l ∈ ls, '\n' ∉ l) →
    stripPercentEOL (joinWith '\n' ls) = joinWith '\n' (ls.map dropOnePercent)
  | [], _ => rfl
  | [l], h => by
    simp only [joinWith, List.map]
    exact strip_eq_dropOne l (h l (by simp))
  | l :: l2 :: ls, h => by
    simp only [joinWith, List.map]
    rw [strip_append_newline l _ (h l (by simp))]
    have hrec := strip_join (l2 :: ls) (fun m hm => h m (List.mem_cons_of_mem _ hm))
    simp only [joinWith, List.map] at hrec
    rw [hrec]

/-- C4 counterexample: on the document `a%%\n\n` the cleaner produces
`a%\n\n` — one of the two trailing `%` characters survives and two
trailing newlines remain — while the claimed behaviour (`specClean`)
would produce `a\n`. -/
theorem clean_yaml_claim_false :
    clean_yaml ['a', '%', '%', '\n', '\n'] = ['a', '%', '\n', '\n'] ∧
    clean_yaml ['a', '%', '%', '\n', '\n'] ≠ specClean ['a', '%', '%', '\n', '\n'] := by
  refine ⟨by decide, by decide⟩

/-- C4 (amended): for every input document (presented by its
newline-free lines), cleaning removes at most one trailing `%` from the
end of each line — exactly one where present — and appends a trailing
newline only when the document does not already end with one (so the
result always ends with at least one newline). -/
theorem clean_yaml_amended (ls : List (List Char)) (h : ∀ l ∈ ls, '\n' ∉ l) :
    clean_yaml (joinWith '\n' ls) =
      ensureTrailingNewline (joinWith '\n' (ls.map dropOnePercent)) := by
  simp only [clean_yaml, ensureTrailingNewline]
  rw [strip_join ls h]

/-- Witness for `clean_yaml_amended` on the two-line document `a%\nb`. -/
theorem clean_yaml_amended_witness :
    clean_yaml (joinWith '\n' [['a', '%'], ['b']]) =
      ensureTrailingNewline (joinWith '\n' ([['a', '%'], ['b']].map dropOnePercent)) :=
  clean_yaml_amended [['a', '%'], ['b']] (by decide)

/-- A replacement scan over a document with no occurrence of the search
string is the identity. -/
theorem replaceAllAux_no_occurrence (sea rep : List Char) :
    ∀ (n : Nat) (cs : List Char), containsSub sea cs = false →
    replaceAllAux sea rep n cs = cs := by
  intro n
  induction n with
  | zero => intro cs _; rfl
  | succ n ih =>
    intro cs h
    cases cs with
    | nil => rfl
    | cons c rest =>
      rw [containsSub, Bool.or_eq_false_iff] at h
      rw [replaceAllAux, if_neg (fun hc => by simp [h.1] at hc), ih rest h.2]

/-- C5 counterexample: with `search = "ab"`, `replace = "ba"` (which does
not contain the search string) and document `"aab"`, one application
gives `"aba"` and a second gives `"baa"` — a fresh occurrence of the
search string was created across a replacement boundary, so a single
pair is not idempotent under the claimed side condition. -/
theorem apply_replacements_claim_false :
    containsSub ['a', 'b'] ['b', 'a'] = false ∧
    apply_replacements ['a', 'a', 'b'] [(['a', 'b'], ['b', 'a'])] = ['a', 'b', 'a'] ∧
    apply_replacements (apply_replacements ['a', 'a', 'b'] [(['a', 'b'], ['b', 'a'])])
        [(['a', 'b'], ['b', 'a'])] ≠
      apply_replacements ['a', 'a', 'b'] [(['a', 'b'], ['b', 'a'])] := by
  refine ⟨by decide, by decide, by decide⟩

/-- C5 (amended): applying a (search, replace) pair a second time leaves
the document unchanged provided the search string does not occur in the
once-applied result (the condition "replace does not contain search" is
not sufficient, because an occurrence can straddle a replacement
boundary). -/
theorem apply_replacements_amended (content sea rep : List Char)
    (h : containsSub sea (apply_replacements content [(sea, rep)]) = false) :
    apply_replacements (apply_replacements content [(sea, rep)]) [(sea, rep)] =
      apply_replacements content [(sea, rep)] := by
  set x := apply_replacements content [(sea, rep)] with hx
  show apply_replacements x [(sea, rep)] = x
  unfold apply_replacements
  simp only [List.foldl]
  split_ifs with hc
  · exact replaceAllAux_no_occurrence sea rep x.length x h
  · rfl

/-- Witness for `apply_replacements_amended`: replacing `a` by `b` in
`xay` once gives `xby`, in which `a` no longer occurs. -/
theorem apply_replacements_amended_witness :
    apply_replacements (apply_replacements ['x', 'a', 'y'] [(['a'], ['b'])])
        [(['a'], ['b'])] =
      apply_replacements ['x', 'a', 'y'] [(['a'], ['b'])] :=
  apply_replacements_amended ['x', 'a', 'y'] ['a'] ['b'] (by decide)

/-- C2: for every resource kind supporting DR derivation, the DR record's
identifying name is the primary record's name with the literal suffix
`-dr` appended, and no other naming pattern occurs — one conjunct per
kind: subnetworks, NAT routers, Redis, DataProc, Cloud Functions, Cloud
Run, GKE clusters, firewall rules, compute addresses, VPC connectors and
SQL instances.  For the kinds whose builder can fault (Cloud Functions
on a malformed archive URL, GKE clusters on the DR range-name TypeError,
firewall rules on the target-tag fault) the property is stated for every
pair of records the builders actually produce. -/
theorem dr_name_suffix :
    (∀ (ipr : IpRanges) (sn : Subnetwork),
      (drSubnetworkInfo ipr sn).name = (subnetworkInfo ipr sn).name ++ "-dr") ∧
    (∀ r : Router, (drRouterInfo r).name = (routerInfo r).name ++ "-dr") ∧
    (∀ ri : RedisInstance, (drRedisInfo ri).name = (redisInfo ri).name ++ "-dr") ∧
    (∀ c : DataprocCluster,
      (dpcDrInfo c).cluster_name = (dpcPrimaryInfo c).cluster_name ++ "-dr") ∧
    (∀ (fn : CloudFunction) (p q : CloudFunctionInfo),
      functionInfo fn = some p → drFunctionInfo fn = some q →
        q.name = p.name ++ "-dr") ∧
    (∀ (n : String) (s : RunService),
      (drRunServiceInfo n s).name = (runServiceInfo n s).name ++ "-dr") ∧
    (∀ (ipr : IpRanges) (c : ContainerCluster) (p q : ContainerClusterInfo),
      containerClusterInfo ipr c = some p → drContainerClusterInfo ipr c = some q →
        q.name = p.name ++ "-dr") ∧
    (∀ (ipr : IpRanges) (fw : Firewall) (p q : FirewallInfo),
      firewallInfo ipr fw = some p → drFirewallInfo ipr fw = some q →
        q.name = p.name ++ "-dr") ∧
    (∀ a : ComputeAddress, (drAddressInfo a).name = (addressInfo a).name ++ "-dr") ∧
    (∀ c : VpcConnector, (drConnectorInfo c).name = (connectorInfo c).name ++ "-dr") ∧
    (∀ (i : SqlInstance) (dbs : List (Option String)),
      (drSqlInstanceInfo i dbs).name = (sqlInstanceInfo i dbs).name ++ "-dr") := by
  refine ⟨fun ipr sn => ?_, fun r => rfl, fun ri => rfl, fun c => rfl,
    fun fn p q h1 h2 => ?_, fun n s => rfl, fun ipr c p q h1 h2 => ?_,
    fun ipr fw p q h1 h2 => ?_, fun a => rfl, fun c => rfl, fun i dbs => rfl⟩
  · unfold drSubnetworkInfo subnetworkInfo
    split_ifs <;> rfl
  · unfold functionInfo at h1
    unfold drFunctionInfo at h2
    cases harc : archiveBucket fn.sourceArchiveUrl with
    | none =>
      rw [harc] at h1
      exact absurd h1 (by simp)
    | some bucket =>
      rw [harc] at h1 h2
      simp only [Option.some.injEq] at h1 h2
      subst h1
      subst h2
      rfl
  · unfold containerClusterInfo at h1
    unfold drContainerClusterInfo at h2
    cases hip : extract_ip_allocation_policy c.ipAllocationPolicy false with
    | none =>
      rw [hip] at h1
      exact absurd h1 (by simp [Option.bind_eq_bind])
    | some ipa =>
      cases hip2 : extract_ip_allocation_policy c.ipAllocationPolicy true with
      | none =>
        rw [hip2] at h2
        exact absurd h2 (by simp [Option.bind_eq_bind])
      | some ipa2 =>
        rw [hip] at h1
        rw [hip2] at h2
        simp only [Option.bind_eq_bind, Option.some_bind, Option.pure_def,
          Option.some.injEq] at h1 h2
        subst h1
        subst h2
        rfl
  · cases ht : fw.targetTags with
    | none => simp [firewallInfo, ht] at h1
    | some tl =>
      cases tl with
      | nil => simp [firewallInfo, ht] at h1
      | cons t0 ts =>
        simp only [firewallInfo, ht, Option.some.injEq] at h1
        simp only [drFirewallInfo, ht, Option.some.injEq] at h2
        subst h1
        subst h2
        rfl

/-- Witness for `dr_name_suffix`, exercising the three
hypothesis-bearing conjuncts (Cloud Functions, GKE clusters, firewall
rules) on concrete records that the builders accept. -/
theorem dr_name_suffix_witness :
    ((drFunctionInfo sampleCloudFunction).getD default).name
        = ((functionInfo sampleCloudFunction).getD default).name ++ "-dr" ∧
    ((drContainerClusterInfo sampleIpRanges sampleContainerCluster).getD default).name
        = ((containerClusterInfo sampleIpRanges sampleContainerCluster).getD default).name
            ++ "-dr" ∧
    ((drFirewallInfo sampleIpRanges sampleFirewallTagged).getD default).name
        = ((firewallInfo sampleIpRanges sampleFirewallTagged).getD default).name ++ "-dr" :=
  ⟨dr_name_suffix.2.2.2.2.1 sampleCloudFunction _ _ (by rfl) (by rfl),
   dr_name_suffix.2.2.2.2.2.2.1 sampleIpRanges sampleContainerCluster _ _ (by rfl) (by rfl),
   dr_name_suffix.2.2.2.2.2.2.2.1 sampleIpRanges sampleFirewallTagged _ _ (by rfl) (by rfl)⟩

/-- C3: the plan wrapper reports success exactly for exit codes 0 and 2,
reports exit code 2 with the "changes detected" message, and reports
failure for every other non-zero exit code. -/
theorem plan_exit_code_policy (rc : Int) :
    ((run_terraform_plan rc).1 = true ↔ rc = 0 ∨ rc = 2) ∧
    (rc = 2 → (run_terraform_plan rc).2 = PlanMessage.changesDetected) := by
  unfold run_terraform_plan
  constructor
  · split_ifs with h0 h1 h2 <;> simp_all
  · intro h2
    subst h2
    decide

/-- Witness for `plan_exit_code_policy` at exit code 2. -/
theorem plan_exit_code_policy_witness :
    (((run_terraform_plan 2).1 = true ↔ (2 : Int) = 0 ∨ (2 : Int) = 2) ∧
      ((2 : Int) = 2 → (run_terraform_plan 2).2 = PlanMessage.changesDetected)) :=
  plan_exit_code_policy 2

/-- C8: the DR extraction of node pools forces `initial_node_count` to 1
for every pool, regardless of the primary pool's initial node count. -/
theorem dr_node_pool_initial_count (pools : List NodePool) (q : NodePoolInfo)
    (hq : q ∈ extract_node_pools pools true) : q.initial_node_count = 1 := by
  unfold extract_node_pools at hq
  rcases List.mem_map.mp hq with ⟨np, _, rfl⟩
  rfl

/-- Witness for `dr_node_pool_initial_count` on a pool with primary
count 7. -/
theorem dr_node_pool_initial_count_witness :
    (nodePoolInfo true sampleNodePool).initial_node_count = 1 :=
  dr_node_pool_initial_count [sampleNodePool] (nodePoolInfo true sampleNodePool)
    (List.mem_singleton.mpr rfl)

/-- C9: a fetched firewall rule whose target-tags list is absent or
empty makes the record transformation hit the unguarded
`firewall.get('targetTags')[0]` (a TypeError/IndexError), modelled by
`none`: no tag-less record is ever produced. -/
theorem firewall_empty_tags_fault (ipr : IpRanges) (fw : Firewall)
    (h : fw.targetTags = none ∨ fw.targetTags = some []) :
    firewallInfo ipr fw = none := by
  unfold firewallInfo
  rcases h with h | h <;> rw [h]

/-- Witness for `firewall_empty_tags_fault` on a rule with an empty
target-tags list. -/
theorem firewall_empty_tags_fault_witness :
    firewallInfo sampleIpRanges sampleFirewall = none :=
  firewall_empty_tags_fault sampleIpRanges sampleFirewall (Or.inr rfl)

/-- C10: `get_dataproc_clusters` derives both configurations from the
first fetched cluster whose subnetwork matches the reader's subnetwork
name and ignores every later cluster; with no match both configurations
are the empty mappings (modelled by `none`). -/
theorem dataproc_first_match_only (subnetworkName : String) (cs : List DataprocCluster) :
    (cs.find? (dpcMatches subnetworkName) = none →
      dpcLoop subnetworkName cs = (none, none)) ∧
    (∀ c, cs.find? (dpcMatches subnetworkName) = some c →
      dpcLoop subnetworkName cs = (some (dpcPrimaryInfo c), some (dpcDrInfo c))) := by
  induction cs with
  | nil => exact ⟨fun _ => rfl, fun c hc => by simp [List.find?] at hc⟩
  | cons c0 rest ih =>
    cases hm : dpcMatches subnetworkName c0 with
    | true =>
      constructor
      · intro hn
        rw [List.find?_cons_of_pos _ hm] at hn
        exact absurd hn (by simp)
      · intro c hc
        rw [List.find?_cons_of_pos _ hm] at hc
        obtain rfl : c0 = c := by simpa using hc
        unfold dpcLoop
        rw [if_pos hm]
    | false =>
      constructor
      · intro hn
        rw [List.find?_cons_of_neg _ (by simp [hm])] at hn
        unfold dpcLoop
        rw [if_neg (by simp [hm])]
        exact ih.1 hn
      · intro c hc
        rw [List.find?_cons_of_neg _ (by simp [hm])] at hc
        unfold dpcLoop
        rw [if_neg (by simp [hm])]
        exact ih.2 c hc

/-- Witness for `dataproc_first_match_only`: no match on an empty fetch,
and the single matching cluster is picked. -/
theorem dataproc_first_match_only_witness :
    dpcLoop "sub1" [] = (none, none) ∧
    dpcLoop "sub1" [sampleDpcCluster] =
      (some (dpcPrimaryInfo sampleDpcCluster), some (dpcDrInfo sampleDpcCluster)) :=
  ⟨(dataproc_first_match_only "sub1" []).1 rfl,
   (dataproc_first_match_only "sub1" [sampleDpcCluster]).2 sampleDpcCluster (by decide)⟩

theorem isOkE_mapError {α : Type} (x : Except String α) (g : String → String) :
    isOkE (x.mapError g) = isOkE x := by
  cases x <;> rfl

theorem bindOk {α β : Type} (x : Except String α) (g : α → Except String β)
    (h : isOkE (x.bind g) = true) : ∃ a, x = .ok a ∧ isOkE (g a) = true := by
  cases x with
  | error e => simp [Except.bind, isOkE] at h
  | ok a => exact ⟨a, rfl, h⟩

theorem get_compute_subnetworks_fetch_ok (ipr : IpRanges) (n : String)
    (fetch : Except String (List Subnetwork))
    (h : isOkE (get_compute_subnetworks ipr n fetch) = true) : isOkE fetch = true := by
  cases fetch with
  | error e => simp [get_compute_subnetworks, isOkE] at h
  | ok v => rfl

theorem get_nat_routers_fetch_ok (fetch : Except String (List Router))
    (h : isOkE (get_nat_routers fetch) = true) : isOkE fetch = true := by
  cases fetch with
  | error e => simp [get_nat_routers, isOkE] at h
  | ok v => rfl

theorem get_dataproc_clusters_fetch_ok (n : String)
    (fetch : Except String (List DataprocCluster))
    (h : isOkE (get_dataproc_clusters n fetch) = true) : isOkE fetch = true := by
  cases fetch with
  | error e => simp [get_dataproc_clusters, isOkE] at h
  | ok v => rfl

theorem get_cloudfunctions_fetch_ok (fetch : Except String (List CloudFunction))
    (h : isOkE (get_cloudfunctions fetch) = true) : isOkE fetch = true := by
  cases fetch with
  | error e => simp [get_cloudfunctions, isOkE] at h
  | ok v => rfl

theorem get_cloudrun_fetch_ok (n : String) (fetch : Except String (List RunService))
    (h : isOkE (get_cloudrun n fetch) = true) : isOkE fetch = true := by
  cases fetch with
  | error e => simp [get_cloudrun, isOkE] at h
  | ok v => rfl

theorem get_firewall_rules_fetch_ok (nf : Option (String → Bool)) (ipr : IpRanges)
    (fetch : Except String (List Firewall))
    (h : isOkE (get_firewall_rules nf ipr fetch) = true) : isOkE fetch = true := by
  cases fetch with
  | error e => simp [get_firewall_rules, isOkE] at h
  | ok v => rfl

theorem get_compute_addresses_fetch_ok (fetch : Except String (List ComputeAddress))
    (h : isOkE (get_compute_addresses fetch) = true) : isOkE fetch = true := by
  cases fetch with
  | error e => simp [get_compute_addresses, isOkE] at h
  | ok v => rfl

theorem get_container_clusters_fetch_ok (ipr : IpRanges)
    (fetch : Except String (List ContainerCluster))
    (h : isOkE (get_container_clusters ipr fetch) = true) : isOkE fetch = true := by
  cases fetch with
  | error e => simp [get_container_clusters, isOkE] at h
  | ok v => rfl

theorem get_redis_instances_fetch_ok (fetch : Except String (List RedisInstance))
    (h : isOkE (get_redis_instances fetch) = true) : isOkE fetch = true := by
  cases fetch with
  | error e => simp [get_redis_instances, isOkE] at h
  | ok v => rfl

theorem get_sql_postgres_instances_fetch_ok (n : String)
    (fetch : Except String (List SqlInstance))
    (dbFetch : String → Except String (List SqlDatabase))
    (h : isOkE (get_sql_postgres_instances n fetch dbFetch) = true) :
    isOkE fetch = true := by
  cases fetch with
  | error e => simp [get_sql_postgres_instances, isOkE] at h
  | ok v => rfl

theorem get_vpc_access_connectors_fetch_ok (fetch : Except String (List VpcConnector))
    (h : isOkE (get_vpc_access_connectors fetch) = true) : isOkE fetch = true := by
  cases fetch with
  | error e => simp [get_vpc_access_connectors, isOkE] at h
  | ok v => rfl

/-- A successful aggregation implies every resource-kind fetch
succeeded (contrapositive of "any fetch failure is fatal"). -/
theorem get_all_resources_ok (cfg : ReaderConfig) (f : Fetches)
    (h : isOkE (get_all_resources cfg f) = true) :
    isOkE f.subnetworks = true ∧ isOkE f.routers = true ∧
    isOkE f.dataprocClusters = true ∧ isOkE f.cloudFunctions = true ∧
    isOkE f.runServices = true ∧ isOkE f.firewalls = true ∧
    isOkE f.addresses = true ∧ isOkE f.containerClusters = true ∧
    isOkE f.redisInstances = true ∧ isOkE f.sqlInstances = true ∧
    isOkE f.vpcConnectors = true := by
  unfold get_all_resources at h
  rw [isOkE_mapError] at h
  obtain ⟨subs, hsubs, h⟩ := bindOk _ _ h
  obtain ⟨nats, hnats, h⟩ := bindOk _ _ h
  obtain ⟨dpc, hdpc, h⟩ := bindOk _ _ h
  obtain ⟨fns, hfns, h⟩ := bindOk _ _ h
  obtain ⟨runs, hruns, h⟩ := bindOk _ _ h
  obtain ⟨fwr, hfwr, h⟩ := bindOk _ _ h
  obtain ⟨addrs, haddrs, h⟩ := bindOk _ _ h
  obtain ⟨ccs, hccs, h⟩ := bindOk _ _ h
  obtain ⟨reds, hreds, h⟩ := bindOk _ _ h
  obtain ⟨sqls, hsqls, h⟩ := bindOk _ _ h
  obtain ⟨vacs, hvacs, _⟩ := bindOk _ _ h
  refine ⟨get_compute_subnetworks_fetch_ok _ _ _ (by rw [hsubs]; rfl),
    get_nat_routers_fetch_ok _ (by rw [hnats]; rfl),
    get_dataproc_clusters_fetch_ok _ _ (by rw [hdpc]; rfl),
    get_cloudfunctions_fetch_ok _ (by rw [hfns]; rfl),
    get_cloudrun_fetch_ok _ _ (by rw [hruns]; rfl),
    get_firewall_rules_fetch_ok _ _ _ (by rw [hfwr]; rfl),
    get_compute_addresses_fetch_ok _ (by rw [haddrs]; rfl),
    get_container_clusters_fetch_ok _ _ (by rw [hccs]; rfl),
    get_redis_instances_fetch_ok _ (by rw [hreds]; rfl),
    get_sql_postgres_instances_fetch_ok _ _ _ (by rw [hsqls]; rfl),
    get_vpc_access_connectors_fetch_ok _ (by rw [hvacs]; rfl)⟩

/-- C6: the per-instance database listing degrades to an empty list when
its command fails (soft failure, nothing raised), while a failure of any
resource-kind fetch inside `get_all_resources` makes the whole
aggregation return an error — the `Except` result carries no partially
aggregated documents in that case. -/
theorem error_policy :
    (∀ e, get_sql_databases (Except.error e) = []) ∧
    (∀ (cfg : ReaderConfig) (f : Fetches),
      (isOkE f.subnetworks = false ∨ isOkE f.routers = false ∨
       isOkE f.dataprocClusters = false ∨ isOkE f.cloudFunctions = false ∨
       isOkE f.runServices = false ∨ isOkE f.firewalls = false ∨
       isOkE f.addresses = false ∨ isOkE f.containerClusters = false ∨
       isOkE f.redisInstances = false ∨ isOkE f.sqlInstances = false ∨
       isOkE f.vpcConnectors = false) →
      isOkE (get_all_resources cfg f) = false) := by
  constructor
  · intro e
    rfl
  · intro cfg f hfail
    by_contra hok
    rw [Bool.not_eq_false] at hok
    have hall := get_all_resources_ok cfg f hok
    rcases hfail with h | h | h | h | h | h | h | h | h | h | h <;> simp_all

/-- Witness for `error_policy`: with the Redis fetch failing, the whole
aggregation fails. -/
theorem error_policy_witness :
    get_sql_databases (Except.error "boom") = [] ∧
    isOkE (get_all_resources sampleConfig sampleFetchesRedisDown) = false :=
  ⟨error_policy.1 "boom",
   error_policy.2 sampleConfig sampleFetchesRedisDown
     (Or.inr (Or.inr (Or.inr (Or.inr (Or.inr (Or.inr (Or.inr (Or.inr (Or.inl rfl)))))))))⟩

/-- Helper: prepending the empty string is the identity. -/
theorem str_empty_append (s : String) : "" ++ s = s := by
  cases s
  rfl

/-- C7 counterexample: on a file system where the primary output path
already holds `olddoc`, a failure right after the truncating `open` (one
completed operation) leaves an empty file at the output path — neither
the original nor the complete new document — so the tfvars write
sequence is not all-or-nothing. -/
theorem tfvars_write_claim_false :
    ¬ allOrNothing
        (tfvarsWritePlan "r1-rai.tfvars.json" "r1-rai-dr.tfvars.json" "newdoc" "newdrdoc")
        (fun q => if q = "r1-rai.tfvars.json" then some "olddoc" else none)
        "r1-rai.tfvars.json" "newdoc" :=
  fun h => absurd (h 1) (by decide)

/-- C7 (amended): both writers emit the documents directly to their
final output paths (truncate, then write) with no temporary path, rename
or verification; whenever the primary path's prior content is not the
empty string and the new document is non-empty, an interruption after
the truncation leaves a partial file, so the write is not
all-or-nothing — although an uninterrupted run does end with the
complete document in place. -/
theorem tfvars_write_not_atomic (pp dp pdoc ddoc : String)
    (fs0 : String → Option String) (h1 : fs0 pp ≠ some "") (h2 : pdoc ≠ "") :
    ¬ allOrNothing (tfvarsWritePlan pp dp pdoc ddoc) fs0 pp pdoc ∧
    (dp ≠ pp → runOps fs0 (tfvarsWritePlan pp dp pdoc ddoc) pp = some pdoc) := by
  constructor
  · intro h
    have hk := h 1
    simp only [tfvarsWritePlan, List.take, runOps, List.foldl, applyOp, if_pos rfl,
      if_true] at hk
    rcases hk with hk | hk
    · exact h1 hk.symm
    · rw [Option.some.injEq] at hk
      exact h2 hk.symm
  · intro hne
    have hne2 : pp ≠ dp := fun he => hne he.symm
    simp only [tfvarsWritePlan, runOps, List.foldl, applyOp, if_pos rfl, if_true,
      if_neg hne2, Option.getD_some]
    rw [str_empty_append]

/-- Witness for `tfvars_write_not_atomic` at concrete paths and
contents. -/
theorem tfvars_write_not_atomic_witness :
    ¬ allOrNothing (tfvarsWritePlan "a.json" "b.json" "doc" "drdoc")
        (fun q => if q = "a.json" then some "old" else none) "a.json" "doc" ∧
    ("b.json" ≠ "a.json" →
      runOps (fun q => if q = "a.json" then some "old" else none)
        (tfvarsWritePlan "a.json" "b.json" "doc" "drdoc") "a.json" = some "doc") :=
  tfvars_write_not_atomic "a.json" "b.json" "doc" "drdoc"
    (fun q => if q = "a.json" then some "old" else none) (by decide) (by decide)

end Mlisa
